import Mathlib

/-!
Verification of the Dynamic_Pricing_Justification repository.

Shallow embedding of the condition-to-price pipeline:
* `NLP.*`  embeds `src/NLP/src/...` (price calculator, condition evaluator,
  price cache, integration service, HTTP glue);
* `SRC.*`  embeds `src/src/...`    (the second price-calculator variant and
  the input validator).

Numbers are embedded as rationals; Python's `round(x, n)` (round-half-to-even
on the scaled value) is embedded as `pyRound`.  Python dict access with a
default (`d.get(k, v)`) is embedded as `Option` fields read with `getD`.
The on-disk JSON files behind `PriceDatabase` / `PriceCache` are embedded as
the in-memory maps they load into: in the source every in-memory mutation
is immediately followed by a full file write, so the in-memory map and the
file hold the same contents at every step.
-/

set_option linter.unreachableTactic false
set_option linter.unusedTactic false
set_option linter.unnecessarySeqFocus false

namespace DP

/-- Round-half-to-even of a rational to an integer, as Python's `round`
performs on the (exact) value. -/
def roundTE (x : ℚ) : ℤ :=
  let f := x - ⌊x⌋
  if f < 1/2 then ⌊x⌋
  else if 1/2 < f then ⌊x⌋ + 1
  else if ⌊x⌋ % 2 = 0 then ⌊x⌋ else ⌊x⌋ + 1

/-- Python's `round(x, n)`: round-half-to-even at the `n`-th decimal. -/
def pyRound (n : ℕ) (x : ℚ) : ℚ :=
  (roundTE (x * 10 ^ n) : ℚ) / 10 ^ n

/-- Python `str.lower()` (character-wise, as these ASCII-only inputs use). -/
def strLower (s : String) : String :=
  String.mk (s.data.map Char.toLower)

/-- Python `str.replace(a, b)` for single characters. -/
def strReplaceChar (s : String) (a b : Char) : String :=
  String.mk (s.data.map (fun c => if c = a then b else c))

/-- Python `str.rstrip(c)`. -/
def strRstrip (s : String) (c : Char) : String :=
  String.mk ((s.data.reverse.dropWhile (· = c)).reverse)

/-- Python `str.strip()` (whitespace at both ends). -/
def strStrip (s : String) : String :=
  String.mk (((s.data.dropWhile Char.isWhitespace).reverse.dropWhile
    Char.isWhitespace).reverse)

/-- Occurrence test on character lists (Python `needle in haystack` for
strings). -/
def listContainsSub (needle : List Char) : List Char → Bool
  | [] => needle.isEmpty
  | c :: t => needle.isPrefixOf (c :: t) || listContainsSub needle t

/-- Python `needle in haystack` for strings. -/
def strContainsSub (haystack needle : String) : Bool :=
  listContainsSub needle.data haystack.data


/-- One detected issue, as the Python dicts that flow through the pipeline
(`{"type": ..., "severity": ..., "location": ..., "confidence": ...,
"impact": ..., "view": ...}`); fields read via `.get` are `Option`s. -/
structure Issue where
  type : Option String := none
  severity : Option String := none
  location : Option String := none
  confidence : Option ℚ := none
  impact : Option ℚ := none
  view : Option String := none
deriving Repr, DecidableEq

/-- The `cv_data` dict consumed by both price calculators. -/
structure CvData where
  usage_years : Option ℚ := none
  overall_condition : Option String := none
  condition_score : Option ℚ := none
  total_discount_impact : Option ℚ := none
  detected_issues : List Issue := []
  issues_count : Option ℕ := none
deriving Repr, DecidableEq

namespace NLP

/-- `PriceCalculator._calculate_usage_depreciation`
(src/NLP/src/pricing/price_calculator.py, lines 114-127), on the
`usage_years` value. -/
def usageDepreciation (usage_years : ℚ) : ℚ :=
  if usage_years < 1/2 then 10
  else if usage_years < 1 then 15
  else if usage_years < 2 then 25
  else if usage_years < 3 then 35
  else 45

/-- The same function taking the full `cv_data` dict
(`cv_data.get('usage_years', 1.0)`). -/
def calculateUsageDepreciation (cv : CvData) : ℚ :=
  usageDepreciation (cv.usage_years.getD 1)

/-- `condition_map` of `_calculate_condition_depreciation`
(src/NLP/src/pricing/price_calculator.py, lines 129-142), including the
`.get(condition, 5.0)` default. -/
def conditionMap (condition : String) : ℚ :=
  if condition = "excellent" then 0
  else if condition = "very good" then 2
  else if condition = "good" then 5
  else if condition = "fair" then 10
  else if condition = "poor" then 15
  else if condition = "damaged" then 20
  else if condition = "broken" then 30
  else 5

/-- `PriceCalculator._calculate_condition_depreciation`:
`cv_data.get('overall_condition', 'good').lower()` looked up in the table. -/
def calculateConditionDepreciation (cv : CvData) : ℚ :=
  conditionMap (strLower (cv.overall_condition.getD "good"))

/-- `severity_weights` of the fallback branch in
`_calculate_damage_depreciation` (lines 152-154), with the `.get(_, 2.0)`
default. -/
def fallbackSeverityWeight (severity : String) : ℚ :=
  if severity = "minor" then 2
  else if severity = "moderate" then 5
  else if severity = "severe" then 10
  else if severity = "critical" then 15
  else 2

/-- `PriceCalculator._calculate_damage_depreciation`
(src/NLP/src/pricing/price_calculator.py, lines 144-158). -/
def calculateDamageDepreciation (cv : CvData) : ℚ :=
  let damage_percentage := (cv.total_discount_impact.getD 0) * 100
  if damage_percentage = 0 ∧ cv.detected_issues ≠ [] then
    min ((cv.detected_issues.map
      (fun i => fallbackSeverityWeight (i.severity.getD "minor"))).sum) 25
  else damage_percentage

/-- The pre-rounding total depreciation of `calculate_used_price`
(lines 42-45): sum of the three components, capped at 85. -/
def totalDepreciation (cv : CvData) : ℚ :=
  min (calculateUsageDepreciation cv + calculateConditionDepreciation cv +
    calculateDamageDepreciation cv) 85

/-- `PriceDatabase._generate_key` (src/NLP/src/external/price_database.py):
lowercase `brand_model`, spaces and dashes to underscores, keep only
alphanumerics and underscores. -/
def dbGenerateKey (brand model : String) : String :=
  let key := strLower (brand ++ "_" ++ model)
  let key := strReplaceChar (strReplaceChar key ' ' '_') '-' '_'
  String.mk (key.data.filter (fun c => c.isAlphanum ∨ c = '_'))

/-- `PriceCache._generate_key` (src/NLP/src/external/price_cache.py,
lines 35-40): `brand_model[_category]` lowercased, spaces to underscores
(`if category:` is Python truthiness, so an empty string is skipped). -/
def cacheGenerateKey (brand model : String) (category : Option String) : String :=
  let key := strLower brand ++ "_" ++ strLower model
  let key := match category with
    | some c => if c = "" then key else key ++ "_" ++ strLower c
    | none => key
  strReplaceChar key ' ' '_'

/-- One cache entry: `{'timestamp': ..., 'price_data': ...}`.  Timestamps are
rationals measured in days; `price_data` is embedded by the `price` field of
the stored search-result dict, the only field the calculator reads. -/
structure CacheEntry where
  timestamp : ℚ
  priceData : ℚ
deriving Repr, DecidableEq

/-- The mutable shared state of the component chain: the price-database map
(keyed by `dbGenerateKey`, holding each product's `price` field) and the
price-cache map (keyed by `cacheGenerateKey`). -/
structure State where
  db : String → Option ℚ
  cache : String → Option CacheEntry

/-- `PriceCache.get` (src/NLP/src/external/price_cache.py, lines 42-57),
with `expiry_days` and the current time passed explicitly: a present entry
strictly older than `expiry_days` days is deleted (and the file rewritten)
and reported as a miss; otherwise its `price_data` is returned. -/
def cacheGet (cache : String → Option CacheEntry) (expiryDays now : ℚ)
    (brand model : String) (category : Option String) :
    Option ℚ × (String → Option CacheEntry) :=
  let key := cacheGenerateKey brand model category
  match cache key with
  | none => (none, cache)
  | some entry =>
    if expiryDays < now - entry.timestamp then
      (none, fun k => if k = key then none else cache k)
    else
      (some entry.priceData, cache)

/-- `PriceCache.set` (src/NLP/src/external/price_cache.py, lines 59-68). -/
def cacheSet (cache : String → Option CacheEntry) (now : ℚ)
    (brand model : String) (priceData : ℚ) (category : Option String) :
    String → Option CacheEntry :=
  let key := cacheGenerateKey brand model category
  fun k => if k = key then some ⟨now, priceData⟩ else cache k

/-- The reference-price dicts `{'price': ..., 'source': ...}` built by
`_get_reference_price`. -/
structure RefPriceData where
  price : ℚ
  source : String
deriving Repr, DecidableEq

/-- The external web price-search collaborator
(`PriceSearchEngine.search_product_price`), abstracted as a function from
`(brand, model, category)` to an optional found price (the `price` field of
its result dict; `None`/absent results are `none`). -/
def WebSearch : Type := String → String → Option String → Option ℚ

/-- `PriceCalculator._get_reference_price`
(src/NLP/src/pricing/price_calculator.py, lines 70-112).
`useWebSearch` is the constructor flag (it also decides whether
`price_search`/`price_cache` exist, so the two `hasattr` guards coincide
with it).  Python's truthiness tests `db_price.get('price')` and
`search_result.get('price')` are the `≠ 0` guards. -/
def getReferencePrice (useWebSearch : Bool) (web : WebSearch) (now : ℚ)
    (brand model : String) (category : Option String) (s : State) :
    Option RefPriceData × State :=
  let afterDb : Option RefPriceData × State :=
    if useWebSearch then
      match cacheGet s.cache 7 now brand model category with
      | (some price_val, cache') =>
        (some { price := price_val, source := "cache" }, { s with cache := cache' })
      | (none, cache') =>
        match web brand model category with
        | some wp =>
          if wp ≠ 0 then
            (some { price := wp, source := "web_search" },
              { s with cache := cacheSet cache' now brand model wp category })
          else (none, { s with cache := cache' })
        | none => (none, { s with cache := cache' })
    else (none, s)
  match s.db (dbGenerateKey brand model) with
  | some p => if p ≠ 0 then (some { price := p, source := "database" }, s) else afterDb
  | none => afterDb

/-- The `PricingResult` dict returned by `calculate_used_price`
(src/NLP/src/pricing/price_calculator.py, lines 51-68); the
`discount_breakdown` sub-dict is flattened into the `breakdown_*` fields and
`price_metadata` into the `meta_*` fields. -/
structure PricingResult where
  reference_new_price : ℚ
  calculated_used_price : ℚ
  discount_percentage : ℚ
  breakdown_usage : ℚ
  breakdown_condition : ℚ
  breakdown_damage : ℚ
  currency : String
  meta_brand : String
  meta_model : String
  meta_source : String
  meta_condition_score : ℚ
  meta_issues_count : ℕ
deriving Repr, DecidableEq

/-- `PriceCalculator.calculate_used_price`
(src/NLP/src/pricing/price_calculator.py, lines 21-68): resolve the
reference price (callers may supply one, which becomes source `"manual"`),
apply the three capped depreciation components and build the result dict.
Returns the possibly-`None` result together with the final shared state. -/
def calculateUsedPrice (useWebSearch : Bool) (web : WebSearch) (now : ℚ)
    (brand model : String) (cv : CvData) (referencePrice : Option ℚ)
    (category : Option String) (s : State) : Option PricingResult × State :=
  let resolved : Option (ℚ × String) × State :=
    match referencePrice with
    | some p => (some (p, "manual"), s)
    | none =>
      match getReferencePrice useWebSearch web now brand model category s with
      | (some rd, s₁) => (some (rd.price, rd.source), s₁)
      | (none, s₁) => (none, s₁)
  match resolved with
  | (none, s₁) => (none, s₁)
  | (some (rp, src), s₁) =>
    let usage := calculateUsageDepreciation cv
    let condition := calculateConditionDepreciation cv
    let damage := calculateDamageDepreciation cv
    let total := min (usage + condition + damage) 85
    let used_price := rp * (1 - total / 100)
    (some {
      reference_new_price := rp
      calculated_used_price := pyRound 2 used_price
      discount_percentage := pyRound 2 total
      breakdown_usage := pyRound 2 usage
      breakdown_condition := pyRound 2 condition
      breakdown_damage := pyRound 2 damage
      currency := "EGP"
      meta_brand := brand
      meta_model := model
      meta_source := src
      meta_condition_score := cv.condition_score.getD 7
      meta_issues_count := cv.issues_count.getD 0 }, s₁)

/-- The error dict built by `CVIntegrationService.process_complete_workflow`
when pricing fails (src/NLP/src/services/cv_integration_service.py,
lines 111-116). -/
structure WorkflowFailure where
  success : Bool
  error : String
  message : String
deriving Repr, DecidableEq

/-- The pricing check of `process_complete_workflow`: `if not pricing_data:`
return the typed failure dict (a returned pricing dict is non-empty, so
Python truthiness coincides with `Option.isSome`).  `none` means the
workflow continues with the pricing data. -/
def workflowPricingCheck (pricing : Option PricingResult)
    (productName : String) : Option WorkflowFailure :=
  match pricing with
  | none => some
      { success := false
        error := "price_not_found"
        message := "Could not find pricing data for \x27" ++ productName ++ "\x27" }
  | some _ => none

/-- `/cv-to-pricing` status selection (src/NLP/api/main.py, line 82):
`200 if result.get('success') else 404`. -/
def cvToPricingStatus (success : Bool) : ℕ :=
  if success then 200 else 404

/-- The `/calculate-price` endpoint response to a pricing outcome
(src/api/main.py, lines 66-83): `None` becomes a 404 with
`status: 'price_not_found'`, otherwise the pricing dict with 200. -/
inductive CalculatePriceResponse
  | notFound (status message instruction : String) (httpCode : ℕ)
  | ok (pricing : PricingResult) (httpCode : ℕ)
deriving Repr, DecidableEq

/-- `/calculate-price` result mapping (src/api/main.py, lines 66-83). -/
def calculatePriceEndpoint (pricing : Option PricingResult)
    (brand model : String) : CalculatePriceResponse :=
  match pricing with
  | none => .notFound "price_not_found"
      ("Could not find market price for \x27" ++ brand ++ " " ++ model ++ "\x27.")
      "Please provide \x27reference_price\x27 manually to continue." 404
  | some r => .ok r 200

end NLP

namespace Evaluator

/-- One entry of a `damage_details` list:
`{"severity": ..., "location": ...}`. -/
structure DamageDetail where
  severity : Option String := none
  location : Option String := none
deriving Repr, DecidableEq

/-- One per-view record of the Gemini analysis dict. -/
structure ViewAnalysis where
  overall_condition : Option String := none
  damage_details : List (String × List DamageDetail) := []
deriving Repr, DecidableEq

/-- `ConditionEvaluator.CONDITION_SCORES`
(src/NLP/src/cv_analysis/condition_evaluator.py, lines 14-22), with the
`.get(_, 7.0)` default used at line 105. -/
def conditionScores (condition : String) : ℚ :=
  if condition = "excellent" then 19/2
  else if condition = "very good" then 17/2
  else if condition = "good" then 7
  else if condition = "fair" then 5
  else if condition = "poor" then 3
  else if condition = "damaged" then 2
  else if condition = "broken" then 1
  else 7

/-- `ConditionEvaluator.SEVERITY_WEIGHTS` (lines 25-30), with the
`.get(severity, 0.02)` default used at line 158. -/
def severityWeight (severity : String) : ℚ :=
  if severity = "minor" then 1/50
  else if severity = "moderate" then 1/20
  else if severity = "severe" then 1/10
  else if severity = "critical" then 3/20
  else 1/50

/-- `ConditionEvaluator._create_issue_entry` (lines 125-166). -/
def createIssueEntry (damage_type view : String) (details : DamageDetail) :
    Issue :=
  let severity := strLower (details.severity.getD "minor")
  { type := some (strLower (strRstrip damage_type 's'))
    severity := some severity
    location := some (strStrip (strLower view ++ " " ++ details.location.getD ""))
    impact := some (severityWeight severity)
    view := some view }

/-- `ConditionEvaluator._determine_overall_condition` (lines 168-187):
worst-case precedence over the fixed priority list. -/
def determineOverallCondition (conditions : List String) : String :=
  if conditions = [] then "good"
  else
    match ["broken", "damaged", "poor", "fair", "good", "very good",
        "excellent"].find? (fun level => conditions.contains level) with
    | some level => level
    | none => "good"

/-- The per-issue deduction table of `_adjust_score_for_issues`
(lines 206-212), with the `.get(severity, 0.2)` default. -/
def scoreDeduction (severity : String) : ℚ :=
  if severity = "critical" then 3/2
  else if severity = "severe" then 1
  else if severity = "moderate" then 1/2
  else if severity = "minor" then 1/5
  else 1/5

/-- `ConditionEvaluator._adjust_score_for_issues` (lines 189-219). -/
def adjustScoreForIssues (base_score : ℚ) (issues : List Issue) : ℚ :=
  if issues = [] then base_score
  else
    let total_deduction :=
      (issues.map (fun i => scoreDeduction (i.severity.getD "minor"))).sum
    max 1 (base_score - total_deduction)

/-- `ConditionEvaluator._calculate_discount_impact` (lines 237-251):
sum of the stored per-issue impacts (default 0.02), capped at 0.30. -/
def calculateDiscountImpact (issues : List Issue) : ℚ :=
  if issues = [] then 0
  else min (3/10) ((issues.map (fun i => i.impact.getD (1/50))).sum)

/-- `ConditionEvaluator._calculate_severity_distribution` (lines 221-235),
flattened to the four counters. -/
structure SeverityDistribution where
  minorCount : ℕ
  moderateCount : ℕ
  severeCount : ℕ
  criticalCount : ℕ
deriving Repr, DecidableEq

/-- `ConditionEvaluator._calculate_severity_distribution` (lines 221-235). -/
def calculateSeverityDistribution (issues : List Issue) : SeverityDistribution :=
  { minorCount := (issues.filter (fun i => i.severity.getD "minor" = "minor")).length
    moderateCount := (issues.filter (fun i => i.severity.getD "minor" = "moderate")).length
    severeCount := (issues.filter (fun i => i.severity.getD "minor" = "severe")).length
    criticalCount := (issues.filter (fun i => i.severity.getD "minor" = "critical")).length }

/-- The condition-summary dict returned by `evaluate_from_gemini`
(lines 114-123) / `_get_default_condition` (lines 253-269). -/
structure ConditionSummary where
  overall_condition : String
  condition_score : ℚ
  detected_issues : List Issue
  severity_distribution : SeverityDistribution
  total_discount_impact : ℚ
  usage_years : ℚ
  views_analyzed : List String
  issues_count : ℕ
deriving Repr, DecidableEq

/-- `ConditionEvaluator._get_default_condition` (lines 253-269). -/
def getDefaultCondition (usage_years : ℚ) : ConditionSummary :=
  { overall_condition := "good"
    condition_score := 7
    detected_issues := []
    severity_distribution := ⟨0, 0, 0, 0⟩
    total_discount_impact := 0
    usage_years := usage_years
    views_analyzed := []
    issues_count := 0 }

/-- `ConditionEvaluator.evaluate_from_gemini` (lines 32-123).  The Gemini
analysis dict is embedded as an association list of views; `if not
gemini_analysis:` is emptiness; the inner `if items and isinstance(items,
list):` guard keeps only non-empty lists (iterating an empty list adds
nothing, and every embedded value is a list). -/
def evaluateFromGemini (gemini_analysis : List (String × ViewAnalysis))
    (usage_years : ℚ) : ConditionSummary :=
  if gemini_analysis = [] then getDefaultCondition usage_years
  else
    let all_conditions := gemini_analysis.map
      (fun va => strLower (va.2.overall_condition.getD "good"))
    let all_issues := gemini_analysis.flatMap (fun va =>
      va.2.damage_details.flatMap (fun dt =>
        if dt.2 ≠ [] then dt.2.map (createIssueEntry dt.1 va.1) else []))
    let overall_condition := determineOverallCondition all_conditions
    let base_score := conditionScores overall_condition
    let condition_score := adjustScoreForIssues base_score all_issues
    { overall_condition := overall_condition
      condition_score := pyRound 2 condition_score
      detected_issues := all_issues
      severity_distribution := calculateSeverityDistribution all_issues
      total_discount_impact := pyRound 3 (calculateDiscountImpact all_issues)
      usage_years := usage_years
      views_analyzed := gemini_analysis.map (·.1)
      issues_count := all_issues.length }

end Evaluator

namespace SRC

/-- `PriceCalculator._get_reference_price` mock table
(src/src/pricing/price_calculator.py, lines 39-52). -/
def getReferencePriceMock (brand : String) : ℚ :=
  let b := strLower brand
  if b = "canon" then 5000
  else if b = "nikon" then 4500
  else if b = "sony" then 5500
  else if b = "apple" then 999
  else if b = "samsung" then 899
  else if b = "dell" then 1200
  else if b = "hp" then 1100
  else 1000

/-- `PriceCalculator._calculate_base_depreciation`
(src/src/pricing/price_calculator.py, lines 54-69), on the
`condition_score` value. -/
def baseDepreciation (condition_score : ℚ) : ℚ :=
  if 9 ≤ condition_score then 10
  else if 8 ≤ condition_score then 15
  else if 7 ≤ condition_score then 20
  else if 6 ≤ condition_score then 30
  else if 5 ≤ condition_score then 40
  else 50

/-- `PriceCalculator._calculate_condition_adjustment` (lines 71-81),
including the `.get(condition, 5)` default (no lowercasing here). -/
def conditionAdjustment (condition : String) : ℚ :=
  if condition = "excellent" then 0
  else if condition = "good" then 5
  else if condition = "fair" then 10
  else if condition = "poor" then 15
  else 5

/-- The `base_penalty` table of `_calculate_issue_penalty` (lines 97-103). -/
def basePenalty (issue_type : String) : ℚ :=
  if issue_type = "crack" then 15
  else if issue_type = "dent" then 10
  else if issue_type = "scratch" then 5
  else if issue_type = "discoloration" then 3
  else if issue_type = "wear" then 2
  else 2

/-- The `severity_multiplier` table of `_calculate_issue_penalty`
(lines 105-109). -/
def severityMultiplier (severity : String) : ℚ :=
  if severity = "minor" then 1/2
  else if severity = "moderate" then 1
  else if severity = "severe" then 2
  else 1

/-- `PriceCalculator._calculate_issue_penalty` (lines 83-114):
`base_penalty * severity_multiplier * confidence` summed over the issues
(defaults `type=''`, `severity='minor'`, `confidence=0.5`), capped at 30;
an empty issue list short-circuits to 0. -/
def issuePenalty (issues : List Issue) : ℚ :=
  if issues = [] then 0
  else
    min ((issues.map (fun i =>
      basePenalty (i.type.getD "") * severityMultiplier (i.severity.getD "minor") *
        i.confidence.getD (1/2))).sum) 30

/-- The result dict of the `src/src` variant of `calculate_used_price`
(lines 28-37); `price_factors` is flattened into the `factor_*` fields. -/
structure SrcPricingResult where
  reference_new_price : ℚ
  calculated_used_price : ℚ
  discount_percentage : ℚ
  factor_base_depreciation : ℚ
  factor_condition_adjustment : ℚ
  factor_issue_penalty : ℚ
deriving Repr, DecidableEq

/-- `PriceCalculator.calculate_used_price`
(src/src/pricing/price_calculator.py, lines 10-37): here the used price is
computed from the already-rounded `discount_percentage`. -/
def calculateUsedPrice (brand _model : String) (cv : CvData)
    (referencePrice : Option ℚ) : SrcPricingResult :=
  let reference_price := referencePrice.getD (getReferencePriceMock brand)
  let base := baseDepreciation (cv.condition_score.getD 7)
  let adjustment := conditionAdjustment (cv.overall_condition.getD "good")
  let penalty := issuePenalty cv.detected_issues
  let total := min (base + adjustment + penalty) 80
  let discount_percentage := pyRound 2 total
  let used_price := reference_price * (1 - discount_percentage / 100)
  { reference_new_price := reference_price
    calculated_used_price := pyRound 2 used_price
    discount_percentage := discount_percentage
    factor_base_depreciation := base
    factor_condition_adjustment := adjustment
    factor_issue_penalty := penalty }

end SRC

namespace Validator

/-- Python JSON-ish values as they reach the validator
(src/src/data_processing/input_validator.py): numbers, strings, lists,
dicts and `None`. -/
inductive PyVal where
  | num (q : ℚ)
  | str (s : String)
  | list (xs : List PyVal)
  | dict (fields : List (String × PyVal))
  | null

/-- A Python dict record (association list on string keys). -/
def PyDict : Type := List (String × PyVal)

/-- Python `a <= b` for the values above: defined only between numbers,
a `TypeError` otherwise (this is what `pricing_data['x'] <= 0` does on a
wrongly-typed field). -/
def pyLe (a b : PyVal) : Except String Bool :=
  match a, b with
  | .num x, .num y => .ok (decide (x ≤ y))
  | _, _ => .error "TypeError"

/-- Python `a < b`, numbers only. -/
def pyLt (a b : PyVal) : Except String Bool :=
  match a, b with
  | .num x, .num y => .ok (decide (x < y))
  | _, _ => .error "TypeError"

/-- Python `needle in v`: key test for dicts, membership for lists,
substring test for strings, `TypeError` for numbers and `None`. -/
def pyContains (needle : String) (v : PyVal) : Except String Bool :=
  match v with
  | .dict fields => .ok (fields.lookup needle).isSome
  | .list xs => .ok (xs.any (fun x => match x with | .str s => s == needle | _ => false))
  | .str s => .ok (strContainsSub s needle)
  | _ => .error "TypeError"

/-- Python `v[key]` for dicts (`TypeError` on anything else, `KeyError` on a
missing key; the validator only indexes after a successful `in`). -/
def pyIndex (v : PyVal) (key : String) : Except String PyVal :=
  match v with
  | .dict fields =>
    match fields.lookup key with
    | some x => .ok x
    | none => .error "KeyError"
  | _ => .error "TypeError"

/-- Python `v in listOfStrings` (equality against string literals; non-string
values are simply unequal). -/
def isOneOfStrings (v : PyVal) (ss : List String) : Bool :=
  match v with
  | .str s => ss.contains s
  | _ => false

/-- `InputValidator.REQUIRED_CV_FIELDS`. -/
def REQUIRED_CV_FIELDS : List String :=
  ["item_id", "condition_score", "detected_issues", "overall_condition"]

/-- `InputValidator.REQUIRED_ISSUE_FIELDS`. -/
def REQUIRED_ISSUE_FIELDS : List String :=
  ["type", "location", "severity", "confidence"]

/-- `InputValidator.VALID_CONDITIONS`. -/
def VALID_CONDITIONS : List String := ["excellent", "good", "fair", "poor"]

/-- `InputValidator.VALID_SEVERITIES`. -/
def VALID_SEVERITIES : List String := ["minor", "moderate", "severe"]

/-- The `{'valid': ..., 'errors': ...}` dict both validators return. -/
structure ValidationResult where
  valid : Bool
  errors : List String
deriving Repr, DecidableEq

/-- `v.isNum`: whether a Python value passes
`isinstance(v, (int, float))`. -/
def PyVal.isNum : PyVal → Bool
  | .num _ => true
  | _ => false

/-- `v.isDict`: whether a Python value is a dict. -/
def PyVal.isDict : PyVal → Bool
  | .dict _ => true
  | _ => false

/-- `v.isList`: whether a Python value passes `isinstance(v, list)`. -/
def PyVal.isList : PyVal → Bool
  | .list _ => true
  | _ => false

/-- The missing-required-fields loop of `validate_cv_output` (lines 14-16). -/
def cvMissing (cv_data : PyDict) : List String :=
  REQUIRED_CV_FIELDS.filterMap (fun f =>
    if (cv_data.lookup f).isSome then none
    else some ("Missing required field: " ++ f))

/-- The `condition_score` check of `validate_cv_output` (lines 18-21). -/
def scoreErrs (cv_data : PyDict) : List String :=
  match cv_data.lookup "condition_score" with
  | some (.num q) =>
    if 0 ≤ q ∧ q ≤ 10 then [] else ["condition_score must be between 0 and 10"]
  | some _ => ["condition_score must be between 0 and 10"]
  | none => []

/-- The `overall_condition` check of `validate_cv_output` (lines 23-25). -/
def condErrs (cv_data : PyDict) : List String :=
  match cv_data.lookup "overall_condition" with
  | some v =>
    if isOneOfStrings v VALID_CONDITIONS then []
    else ["Invalid overall_condition. Must be one of: [\x27excellent\x27, \x27good\x27, \x27fair\x27, \x27poor\x27]"]
  | none => []

/-- The missing-fields loop of `_validate_issue` specialized to dict issues
(where `f in issue` is a key-presence test that cannot raise). -/
def issueDictMissingPure (fields : List (String × PyVal)) (index : ℕ) :
    List String → List String
  | [] => []
  | f :: rest =>
    (if (fields.lookup f).isSome then [] else
      ["Issue " ++ toString index ++ ": Missing field \x27" ++ f ++ "\x27"]) ++
    issueDictMissingPure fields index rest

/-- The full error list `_validate_issue` produces on a dict issue. -/
def issueDictErrs (fields : List (String × PyVal)) (index : ℕ) : List String :=
  issueDictMissingPure fields index REQUIRED_ISSUE_FIELDS ++
  (match fields.lookup "severity" with
    | some v =>
      if isOneOfStrings v VALID_SEVERITIES then []
      else ["Issue " ++ toString index ++
        ": Invalid severity. Must be one of: [\x27minor\x27, \x27moderate\x27, \x27severe\x27]"]
    | none => []) ++
  (match fields.lookup "confidence" with
    | some (.num q) =>
      if 0 ≤ q ∧ q ≤ 1 then []
      else ["Issue " ++ toString index ++ ": confidence must be between 0 and 1"]
    | some _ => ["Issue " ++ toString index ++ ": confidence must be between 0 and 1"]
    | none => [])

/-- The error list `validate_cv_output` accumulates over a list of dict
issues. -/
def issuesErrsPure (index : ℕ) : List PyVal → List String
  | [] => []
  | .dict fields :: rest => issueDictErrs fields index ++ issuesErrsPure (index + 1) rest
  | _ :: rest => issuesErrsPure (index + 1) rest

/-- The full error list `validate_cv_output` returns (on inputs where it
does not raise). -/
def cvErrsPure (cv_data : PyDict) : List String :=
  cvMissing cv_data ++ scoreErrs cv_data ++ condErrs cv_data ++
  (match cv_data.lookup "detected_issues" with
    | some (.list xs) => issuesErrsPure 0 xs
    | some _ => ["detected_issues must be a list"]
    | none => [])

/-- The missing-required-fields loop of `validate_pricing_data`
(lines 66-68). -/
def pricingMissing (pricing_data : PyDict) : List String :=
  (["reference_new_price", "calculated_used_price", "discount_percentage"] :
    List String).filterMap (fun f =>
      if (pricing_data.lookup f).isSome then none
      else some ("Missing required field: " ++ f))

/-- The `reference_new_price` check (line 70-71), on numeric values. -/
def refErrsPure (pricing_data : PyDict) : List String :=
  match pricing_data.lookup "reference_new_price" with
  | some (.num q) => if q ≤ 0 then ["reference_new_price must be positive"] else []
  | _ => []

/-- The `calculated_used_price` check (lines 73-74), on numeric values. -/
def usedErrsPure (pricing_data : PyDict) : List String :=
  match pricing_data.lookup "calculated_used_price" with
  | some (.num q) => if q < 0 then ["calculated_used_price cannot be negative"] else []
  | _ => []

/-- The `discount_percentage` check (lines 76-79), on numeric values. -/
def discErrsPure (pricing_data : PyDict) : List String :=
  match pricing_data.lookup "discount_percentage" with
  | some (.num q) =>
    if 0 ≤ q then (if q ≤ 100 then [] else ["discount_percentage must be between 0 and 100"])
    else ["discount_percentage must be between 0 and 100"]
  | _ => []

/-- The full error list `validate_pricing_data` returns (on inputs where it
does not raise). -/
def pricingErrsPure (pricing_data : PyDict) : List String :=
  pricingMissing pricing_data ++ refErrsPure pricing_data ++
    usedErrsPure pricing_data ++ discErrsPure pricing_data

/-- The missing-required-fields loop of `InputValidator._validate_issue`
(src/src/data_processing/input_validator.py, lines 45-47): `field not in
issue` raises on a non-dict, non-list, non-string issue value. -/
def missingIssueFields (issue : PyVal) (index : ℕ) :
    List String → Except String (List String)
  | [] => .ok []
  | f :: rest => do
    let b ← pyContains f issue
    let tail ← missingIssueFields issue index rest
    pure ((if b then [] else
      ["Issue " ++ toString index ++ ": Missing field \x27" ++ f ++ "\x27"]) ++ tail)

/-- `InputValidator._validate_issue`
(src/src/data_processing/input_validator.py, lines 40-57).  The `Except`
layer carries Python exceptions. -/
def validateIssue (issue : PyVal) (index : ℕ) : Except String (List String) := do
  let missing ← missingIssueFields issue index REQUIRED_ISSUE_FIELDS
  let sevErrors ← do
    let b ← pyContains "severity" issue
    if b then do
      let v ← pyIndex issue "severity"
      pure (if isOneOfStrings v VALID_SEVERITIES then [] else
        ["Issue " ++ toString index ++
          ": Invalid severity. Must be one of: [\x27minor\x27, \x27moderate\x27, \x27severe\x27]"])
    else pure []
  let confErrors ← do
    let b ← pyContains "confidence" issue
    if b then do
      let v ← pyIndex issue "confidence"
      pure (match v with
        | .num q =>
          if 0 ≤ q ∧ q ≤ 1 then []
          else ["Issue " ++ toString index ++ ": confidence must be between 0 and 1"]
        | _ => ["Issue " ++ toString index ++ ": confidence must be between 0 and 1"])
    else pure []
  pure (missing ++ sevErrors ++ confErrors)

/-- The `for idx, issue in enumerate(detected_issues)` loop of
`validate_cv_output` (src/src/data_processing/input_validator.py,
lines 31-33), accumulating each issue's errors in order. -/
def validateIssuesList (index : ℕ) : List PyVal → Except String (List String)
  | [] => .ok []
  | issue :: rest => do
    let errs ← validateIssue issue index
    let tail ← validateIssuesList (index + 1) rest
    pure (errs ++ tail)

/-- `InputValidator.validate_cv_output`
(src/src/data_processing/input_validator.py, lines 9-38).  Errors from all
checks are accumulated; the `Except` layer is the possible `TypeError` from
iterating wrongly-typed issue entries. -/
def validateCvOutput (cv_data : PyDict) : Except String ValidationResult := do
  let missing := cvMissing cv_data
  let scoreErrors := scoreErrs cv_data
  let condErrors := condErrs cv_data
  let issueErrors ← match cv_data.lookup "detected_issues" with
    | some (.list xs) => validateIssuesList 0 xs
    | some _ => pure ["detected_issues must be a list"]
    | none => pure ([] : List String)
  let errors := missing ++ scoreErrors ++ condErrors ++ issueErrors
  pure { valid := errors.isEmpty, errors := errors }

/-- `InputValidator.validate_pricing_data`
(src/src/data_processing/input_validator.py, lines 59-84).  The three value
checks compare the raw dict values against number literals with no
type guard, so a wrongly-typed present field is a `TypeError`. -/
def validatePricingData (pricing_data : PyDict) : Except String ValidationResult := do
  let missing := pricingMissing pricing_data
  let refErrors ← match pricing_data.lookup "reference_new_price" with
    | some v => do
      let b ← pyLe v (.num 0)
      pure (if b then ["reference_new_price must be positive"] else [])
    | none => pure ([] : List String)
  let usedErrors ← match pricing_data.lookup "calculated_used_price" with
    | some v => do
      let b ← pyLt v (.num 0)
      pure (if b then ["calculated_used_price cannot be negative"] else [])
    | none => pure ([] : List String)
  let discErrors ← match pricing_data.lookup "discount_percentage" with
    | some v => do
      let b1 ← pyLe (.num 0) v
      if b1 then do
        let b2 ← pyLe v (.num 100)
        pure (if b2 then [] else ["discount_percentage must be between 0 and 100"])
      else pure ["discount_percentage must be between 0 and 100"]
    | none => pure ([] : List String)
  let errors := missing ++ refErrors ++ usedErrors ++ discErrors
  pure { valid := errors.isEmpty, errors := errors }

end Validator

/-- Fixture: a web-search collaborator that never finds a price. -/
def webNone : NLP.WebSearch := fun _ _ _ => none

/-- Fixture: empty database and cache. -/
def emptyState : NLP.State :=
  { db := fun _ => none
    cache := fun _ => none }

/-- Fixture: an unremarkable one-year-old item in good condition. -/
def cvGood : CvData :=
  { usage_years := some 1
    overall_condition := some "good"
    total_discount_impact := some 0 }

/-- Fixture: a `cv_data` whose `total_discount_impact` has more than two
decimals once scaled to percentage points (0.12341 → 12.341%). -/
def cvImpact12341 : CvData :=
  { usage_years := some 1
    overall_condition := some "good"
    total_discount_impact := some (12341/100000) }

/-- The result of the NLP calculator on `cvGood` with a manual reference
price of 100. -/
def nlpGoodResult : NLP.PricingResult :=
  { reference_new_price := 100
    calculated_used_price := 70
    discount_percentage := 30
    breakdown_usage := 25
    breakdown_condition := 5
    breakdown_damage := 0
    currency := "EGP"
    meta_brand := "apple"
    meta_model := "iphone"
    meta_source := "manual"
    meta_condition_score := 7
    meta_issues_count := 0 }

/-- The result of the NLP calculator on `cvImpact12341` with a manual
reference price of 1000 (total depreciation 42.341, reported discount
42.34, used price rounded from the unrounded total). -/
def nlpImpactResult : NLP.PricingResult :=
  { reference_new_price := 1000
    calculated_used_price := 57659/100
    discount_percentage := 2117/50
    breakdown_usage := 25
    breakdown_condition := 5
    breakdown_damage := 617/50
    currency := "EGP"
    meta_brand := "b"
    meta_model := "m"
    meta_source := "manual"
    meta_condition_score := 7
    meta_issues_count := 0 }

/-- Fixture: a state whose database and cache both know one product, with
different prices (database 900, cache 800, cached at day 0). -/
def stateDbAndCache : NLP.State :=
  { db := fun k => if k = NLP.dbGenerateKey "Apple" "iPhone 15" then some 900 else none
    cache := fun k =>
      if k = NLP.cacheGenerateKey "Apple" "iPhone 15" (some "mobile") then some ⟨0, 800⟩
      else none }

/-- Fixture: empty database, one cache entry for `(a, b)` written at day 0
with price 100. -/
def stateStaleCache : NLP.State :=
  { db := fun _ => none
    cache := fun k =>
      if k = NLP.cacheGenerateKey "a" "b" none then some ⟨0, 100⟩ else none }

/-- Fixture: a pricing record with a wrongly-typed `reference_new_price`. -/
def badPricingRec : Validator.PyDict :=
  [("reference_new_price", .str "expensive"), ("calculated_used_price", .num 5),
   ("discount_percentage", .num 10)]

/-- Fixture: a numeric pricing record violating several checks at once
(missing `calculated_used_price`, non-positive reference price, discount out
of range). -/
def violatingPricingRec : Validator.PyDict :=
  [("reference_new_price", .num 0), ("discount_percentage", .num 150)]

/-- Fixture: a CV record with wrongly-typed and out-of-enum values and a
dict issue missing most fields. -/
def violatingCvRec : Validator.PyDict :=
  [("condition_score", .str "high"), ("overall_condition", .str "great"),
   ("detected_issues", .list [.dict [("severity", .str "huge")]])]

theorem le_roundTE {m : ℤ} {x : ℚ} (h : (m : ℚ) ≤ x) : m ≤ roundTE x := by
  have hm : m ≤ ⌊x⌋ := Int.le_floor.mpr h
  unfold roundTE
  dsimp only
  split_ifs <;> omega

theorem roundTE_le {m : ℤ} {x : ℚ} (h : x ≤ (m : ℚ)) : roundTE x ≤ m := by
  have hfl : ⌊x⌋ ≤ m := by
    have := Int.floor_le_floor h
    simpa using this
  have hsucc : (¬ x - ⌊x⌋ < 1/2) → ⌊x⌋ + 1 ≤ m := by
    intro hf
    rcases lt_or_eq_of_le hfl with h' | h'
    · omega
    · exfalso
      apply hf
      have : x - (⌊x⌋ : ℚ) ≤ 0 := by
        rw [h']
        linarith
      linarith
  unfold roundTE
  dsimp only
  split_ifs with h1 h2 h3
  · exact hfl
  · exact hsucc h1
  · exact hfl
  · exact hsucc h1

theorem le_pyRound {m : ℤ} {n : ℕ} {x : ℚ} (h : (m : ℚ) ≤ x) :
    (m : ℚ) ≤ pyRound n x := by
  have hpow : (0 : ℚ) < 10 ^ n := by positivity
  have h1 : (m : ℚ) * 10 ^ n ≤ x * 10 ^ n := by
    exact mul_le_mul_of_nonneg_right h (le_of_lt hpow)
  have h2 : ((m * 10 ^ n : ℤ) : ℚ) ≤ x * 10 ^ n := by push_cast; linarith
  have h3 : (m * 10 ^ n : ℤ) ≤ roundTE (x * 10 ^ n) := le_roundTE h2
  have h4 : ((m * 10 ^ n : ℤ) : ℚ) ≤ (roundTE (x * 10 ^ n) : ℚ) := by
    exact_mod_cast h3
  unfold pyRound
  rw [le_div_iff₀ hpow]
  push_cast at h4 ⊢
  linarith

theorem pyRound_le {m : ℤ} {n : ℕ} {x : ℚ} (h : x ≤ (m : ℚ)) :
    pyRound n x ≤ (m : ℚ) := by
  have hpow : (0 : ℚ) < 10 ^ n := by positivity
  have h1 : x * 10 ^ n ≤ (m : ℚ) * 10 ^ n := by
    exact mul_le_mul_of_nonneg_right h (le_of_lt hpow)
  have h2 : x * 10 ^ n ≤ ((m * 10 ^ n : ℤ) : ℚ) := by push_cast; linarith
  have h3 : roundTE (x * 10 ^ n) ≤ (m * 10 ^ n : ℤ) := roundTE_le h2
  have h4 : (roundTE (x * 10 ^ n) : ℚ) ≤ ((m * 10 ^ n : ℤ) : ℚ) := by
    exact_mod_cast h3
  unfold pyRound
  rw [div_le_iff₀ hpow]
  push_cast at h4 ⊢
  linarith

theorem roundTE_intCast (m : ℤ) : roundTE (m : ℚ) = m := by
  unfold roundTE
  norm_num [Int.floor_intCast]

theorem pyRound_self {n : ℕ} {x : ℚ} (m : ℤ) (hm : x * 10 ^ n = (m : ℚ)) :
    pyRound n x = x := by
  have hpow : (0:ℚ) < 10 ^ n := by positivity
  unfold pyRound
  rw [hm, roundTE_intCast, div_eq_iff (ne_of_gt hpow)]
  exact hm.symm

theorem roundTE_floor_of_lt {x : ℚ} (h : x - ⌊x⌋ < 1/2) : roundTE x = ⌊x⌋ := by
  unfold roundTE
  dsimp only
  rw [if_pos h]

theorem usageDepreciation_lower (u : ℚ) : 10 ≤ NLP.usageDepreciation u := by
  unfold NLP.usageDepreciation
  split_ifs <;> norm_num

theorem usageDepreciation_upper (u : ℚ) : NLP.usageDepreciation u ≤ 45 := by
  unfold NLP.usageDepreciation
  split_ifs <;> norm_num

theorem conditionMap_nonneg (c : String) : 0 ≤ NLP.conditionMap c := by
  unfold NLP.conditionMap
  split_ifs <;> norm_num

theorem fallbackSeverityWeight_nonneg (s : String) :
    0 ≤ NLP.fallbackSeverityWeight s := by
  unfold NLP.fallbackSeverityWeight
  split_ifs <;> norm_num

theorem calculateDamageDepreciation_nonneg {cv : CvData}
    (h : 0 ≤ cv.total_discount_impact.getD 0) :
    0 ≤ NLP.calculateDamageDepreciation cv := by
  unfold NLP.calculateDamageDepreciation
  dsimp only
  split_ifs
  · refine le_min (List.sum_nonneg ?_) (by norm_num)
    intro x hx
    obtain ⟨i, _, rfl⟩ := List.mem_map.mp hx
    exact fallbackSeverityWeight_nonneg _
  · positivity

theorem totalDepreciation_bounds {cv : CvData}
    (h : 0 ≤ cv.total_discount_impact.getD 0) :
    0 ≤ NLP.totalDepreciation cv ∧ NLP.totalDepreciation cv ≤ 85 := by
  unfold NLP.totalDepreciation
  constructor
  · refine le_min ?_ (by norm_num)
    have h1 := usageDepreciation_lower (cv.usage_years.getD 1)
    have h2 := conditionMap_nonneg (strLower (cv.overall_condition.getD "good"))
    have h3 := calculateDamageDepreciation_nonneg h
    unfold NLP.calculateUsageDepreciation NLP.calculateConditionDepreciation
    linarith
  · exact min_le_right _ _

/-- `C7`: usage depreciation is the documented staircase (10 below half a
year, 15 below one year, 25 below two, 35 below three, 45 from three years
on) and is monotonically non-decreasing in `usage_years`. -/
theorem C7_usage_depreciation_staircase_monotone :
    (∀ u : ℚ, u < 1/2 → NLP.usageDepreciation u = 10) ∧
    (∀ u : ℚ, 1/2 ≤ u → u < 1 → NLP.usageDepreciation u = 15) ∧
    (∀ u : ℚ, 1 ≤ u → u < 2 → NLP.usageDepreciation u = 25) ∧
    (∀ u : ℚ, 2 ≤ u → u < 3 → NLP.usageDepreciation u = 35) ∧
    (∀ u : ℚ, 3 ≤ u → NLP.usageDepreciation u = 45) ∧
    (∀ u v : ℚ, u ≤ v → NLP.usageDepreciation u ≤ NLP.usageDepreciation v) := by
  refine ⟨?_, ?_, ?_, ?_, ?_, ?_⟩
  · intro u h
    unfold NLP.usageDepreciation
    split_ifs <;> first | rfl | linarith
  · intro u h h'
    unfold NLP.usageDepreciation
    split_ifs <;> first | rfl | linarith
  · intro u h h'
    unfold NLP.usageDepreciation
    split_ifs <;> first | rfl | linarith
  · intro u h h'
    unfold NLP.usageDepreciation
    split_ifs <;> first | rfl | linarith
  · intro u h
    unfold NLP.usageDepreciation
    split_ifs <;> first | rfl | linarith
  · intro u v huv
    unfold NLP.usageDepreciation
    split_ifs <;> linarith

/-- `C7` witness: the staircase and monotonicity at concrete years. -/
theorem C7_witness :
    NLP.usageDepreciation (1/4) = 10 ∧ NLP.usageDepreciation (3/4) = 15 ∧
    NLP.usageDepreciation (3/2) = 25 ∧ NLP.usageDepreciation (5/2) = 35 ∧
    NLP.usageDepreciation 10 = 45 ∧
    NLP.usageDepreciation 1 ≤ NLP.usageDepreciation 7 :=
  ⟨C7_usage_depreciation_staircase_monotone.1 (1/4) (by norm_num),
   C7_usage_depreciation_staircase_monotone.2.1 (3/4) (by norm_num) (by norm_num),
   C7_usage_depreciation_staircase_monotone.2.2.1 (3/2) (by norm_num) (by norm_num),
   C7_usage_depreciation_staircase_monotone.2.2.2.1 (5/2) (by norm_num) (by norm_num),
   C7_usage_depreciation_staircase_monotone.2.2.2.2.1 10 (by norm_num),
   C7_usage_depreciation_staircase_monotone.2.2.2.2.2 1 7 (by norm_num)⟩

theorem conditionScores_ge_one (c : String) : 1 ≤ Evaluator.conditionScores c := by
  unfold Evaluator.conditionScores
  split_ifs <;> norm_num

theorem adjustScoreForIssues_ge_one {base : ℚ} (h : 1 ≤ base)
    (issues : List Issue) : 1 ≤ Evaluator.adjustScoreForIssues base issues := by
  unfold Evaluator.adjustScoreForIssues
  split_ifs
  · exact h
  · exact le_max_left _ _

/-- `C5`: for every raw Gemini analysis and every `usage_years`, the
`condition_score` of the returned condition summary is at least 1.0. -/
theorem C5_condition_score_clamped (gemini_analysis : List (String × Evaluator.ViewAnalysis))
    (usage_years : ℚ) :
    1 ≤ (Evaluator.evaluateFromGemini gemini_analysis usage_years).condition_score := by
  unfold Evaluator.evaluateFromGemini
  split_ifs with h
  · simp [Evaluator.getDefaultCondition]
  · dsimp only
    have hbase := conditionScores_ge_one
      (Evaluator.determineOverallCondition (gemini_analysis.map
        (fun va => strLower (va.2.overall_condition.getD "good"))))
    have hadj := adjustScoreForIssues_ge_one hbase
      (gemini_analysis.flatMap (fun va =>
        va.2.damage_details.flatMap (fun dt =>
          if dt.2 ≠ [] then dt.2.map (Evaluator.createIssueEntry dt.1 va.1) else [])))
    have := le_pyRound (m := 1) (n := 2) (by exact_mod_cast hadj)
    exact_mod_cast this

/-- `C5` witness (the theorem has no hypothesis; this instantiates it at a
concrete analysis anyway). -/
theorem C5_witness :
    1 ≤ (Evaluator.evaluateFromGemini
      [("Front", { overall_condition := some "broken",
                   damage_details := [("cracks",
                     [{ severity := some "critical", location := some "screen" }])] })]
      1).condition_score :=
  C5_condition_score_clamped _ 1

/-- `C6`: `total_discount_impact` is the sum of the per-issue impact weights
capped at 0.30; under non-negative per-issue impacts (every impact produced
by `_create_issue_entry` is a positive table weight) it lies in
`[0, 0.30]`, and appending one more issue never decreases it. -/
theorem C6_discount_impact_capped_monotone :
    (∀ issues : List Issue, Evaluator.calculateDiscountImpact issues =
      min (3/10) ((issues.map (fun i => i.impact.getD (1/50))).sum)) ∧
    (∀ issues : List Issue, (∀ i ∈ issues, 0 ≤ i.impact.getD (1/50)) →
      0 ≤ Evaluator.calculateDiscountImpact issues ∧
        Evaluator.calculateDiscountImpact issues ≤ 3/10) ∧
    (∀ (issues : List Issue) (i : Issue), 0 ≤ i.impact.getD (1/50) →
      Evaluator.calculateDiscountImpact issues ≤
        Evaluator.calculateDiscountImpact (issues ++ [i])) := by
  have hformula : ∀ issues : List Issue, Evaluator.calculateDiscountImpact issues =
      min (3/10) ((issues.map (fun i => i.impact.getD (1/50))).sum) := by
    intro issues
    unfold Evaluator.calculateDiscountImpact
    split_ifs with h
    · subst h
      norm_num
    · rfl
  refine ⟨hformula, ?_, ?_⟩
  · intro issues h
    rw [hformula]
    have hsum : 0 ≤ (issues.map (fun i => i.impact.getD (1/50))).sum := by
      refine List.sum_nonneg ?_
      intro x hx
      obtain ⟨i, hi, rfl⟩ := List.mem_map.mp hx
      exact h i hi
    exact ⟨le_min (by norm_num) hsum, min_le_left _ _⟩
  · intro issues i hi
    rw [hformula, hformula]
    have : (issues.map (fun j => j.impact.getD (1/50))).sum ≤
        ((issues ++ [i]).map (fun j => j.impact.getD (1/50))).sum := by
      rw [List.map_append, List.sum_append]
      simp only [List.map_cons, List.map_nil, List.sum_cons, List.sum_nil]
      linarith
    exact min_le_min le_rfl this

/-- `C6` witness: bounds and monotonicity at a concrete issue list. -/
theorem C6_witness :
    (0 ≤ Evaluator.calculateDiscountImpact [{ impact := some (3/20) }] ∧
      Evaluator.calculateDiscountImpact [{ impact := some (3/20) }] ≤ 3/10) ∧
    Evaluator.calculateDiscountImpact [{ impact := some (3/20) }] ≤
      Evaluator.calculateDiscountImpact
        ([{ impact := some (3/20) }] ++ [{ impact := some (1/50) }]) :=
  ⟨C6_discount_impact_capped_monotone.2.1 _ (by
      intro i hi
      simp only [List.mem_singleton] at hi
      subst hi
      norm_num),
   C6_discount_impact_capped_monotone.2.2 _ _ (by norm_num)⟩

theorem calculateUsedPrice_some_inv {uw : Bool} {web : NLP.WebSearch} {now : ℚ}
    {brand model : String} {cv : CvData} {rp : Option ℚ} {cat : Option String}
    {s : NLP.State} {r : NLP.PricingResult}
    (h : (NLP.calculateUsedPrice uw web now brand model cv rp cat s).1 = some r) :
    r.discount_percentage = pyRound 2 (NLP.totalDepreciation cv) ∧
    r.calculated_used_price =
      pyRound 2 (r.reference_new_price * (1 - NLP.totalDepreciation cv / 100)) := by
  unfold NLP.calculateUsedPrice at h
  cases rp with
  | some p =>
    simp only [Option.some.injEq] at h
    subst h
    exact ⟨rfl, rfl⟩
  | none =>
    rcases hgr : NLP.getReferencePrice uw web now brand model cat s with ⟨og, s₁⟩
    rw [hgr] at h
    cases og with
    | none => simp at h
    | some rd =>
      simp only [Option.some.injEq] at h
      subst h
      exact ⟨rfl, rfl⟩

/-- `C1` (amended): in the `src/src` calculator the used price is computed
from the rounded `discount_percentage`, so
`calculated_used_price = round(reference_new_price * (1 -
discount_percentage/100), 2)` holds for every result; in the NLP calculator
the used price is computed from the *unrounded* total depreciation, so the
equality holds whenever rounding that total to two decimals is the
identity (in particular for every `cv_data` the condition evaluator
produces, whose impact-based components have at most one decimal). -/
theorem C1_used_price_formula :
    (∀ (brand model : String) (cv : CvData) (rp : Option ℚ),
      (SRC.calculateUsedPrice brand model cv rp).calculated_used_price =
        pyRound 2 ((SRC.calculateUsedPrice brand model cv rp).reference_new_price *
          (1 - (SRC.calculateUsedPrice brand model cv rp).discount_percentage / 100))) ∧
    (∀ (uw : Bool) (web : NLP.WebSearch) (now : ℚ) (brand model : String)
        (cv : CvData) (rp : Option ℚ) (cat : Option String) (s : NLP.State)
        (r : NLP.PricingResult),
      pyRound 2 (NLP.totalDepreciation cv) = NLP.totalDepreciation cv →
      (NLP.calculateUsedPrice uw web now brand model cv rp cat s).1 = some r →
      r.calculated_used_price =
        pyRound 2 (r.reference_new_price * (1 - r.discount_percentage / 100))) := by
  constructor
  · intro brand model cv rp
    rfl
  · intro uw web now brand model cv rp cat s r hfix h
    obtain ⟨hd, hc⟩ := calculateUsedPrice_some_inv h
    rw [hc, hd, hfix]

theorem calculateUsedPrice_manual_fst (uw : Bool) (web : NLP.WebSearch)
    (now : ℚ) (brand model : String) (cv : CvData) (p : ℚ) (cat : Option String)
    (s : NLP.State) :
    (NLP.calculateUsedPrice uw web now brand model cv (some p) cat s).1 =
      some { reference_new_price := p
             calculated_used_price := pyRound 2 (p * (1 - NLP.totalDepreciation cv / 100))
             discount_percentage := pyRound 2 (NLP.totalDepreciation cv)
             breakdown_usage := pyRound 2 (NLP.calculateUsageDepreciation cv)
             breakdown_condition := pyRound 2 (NLP.calculateConditionDepreciation cv)
             breakdown_damage := pyRound 2 (NLP.calculateDamageDepreciation cv)
             currency := "EGP"
             meta_brand := brand
             meta_model := model
             meta_source := "manual"
             meta_condition_score := cv.condition_score.getD 7
             meta_issues_count := cv.issues_count.getD 0 } := rfl

theorem totalDepreciation_cvGood : NLP.totalDepreciation cvGood = 30 := by
  have hcond : strLower "good" = "good" := by decide
  have hu : NLP.calculateUsageDepreciation cvGood = 25 := by
    norm_num [NLP.calculateUsageDepreciation, cvGood, NLP.usageDepreciation]
  have hc : NLP.calculateConditionDepreciation cvGood = 5 := by
    simp [NLP.calculateConditionDepreciation, cvGood, hcond, NLP.conditionMap]
  have hd : NLP.calculateDamageDepreciation cvGood = 0 := by
    norm_num [NLP.calculateDamageDepreciation, cvGood]
  norm_num [NLP.totalDepreciation, hu, hc, hd]

theorem totalDepreciation_cvGood_fix :
    pyRound 2 (NLP.totalDepreciation cvGood) = NLP.totalDepreciation cvGood := by
  rw [totalDepreciation_cvGood]
  exact pyRound_self 3000 (by norm_num)

theorem calcGood_eval :
    (NLP.calculateUsedPrice false webNone 0 "apple" "iphone" cvGood (some 100)
      none emptyState).1 = some nlpGoodResult := by
  rw [calculateUsedPrice_manual_fst]
  have hcond : strLower "good" = "good" := by decide
  have hu : NLP.calculateUsageDepreciation cvGood = 25 := by
    norm_num [NLP.calculateUsageDepreciation, cvGood, NLP.usageDepreciation]
  have hc : NLP.calculateConditionDepreciation cvGood = 5 := by
    simp [NLP.calculateConditionDepreciation, cvGood, hcond, NLP.conditionMap]
  have hd : NLP.calculateDamageDepreciation cvGood = 0 := by
    norm_num [NLP.calculateDamageDepreciation, cvGood]
  have hcalc : pyRound 2 (70 : ℚ) = 70 := pyRound_self 7000 (by norm_num)
  have hdisc : pyRound 2 (30 : ℚ) = 30 := pyRound_self 3000 (by norm_num)
  have h25 : pyRound 2 (25 : ℚ) = 25 := pyRound_self 2500 (by norm_num)
  have h5 : pyRound 2 (5 : ℚ) = 5 := pyRound_self 500 (by norm_num)
  have h0 : pyRound 2 (0 : ℚ) = 0 := pyRound_self 0 (by norm_num)
  have hm1 : cvGood.condition_score.getD 7 = 7 := rfl
  have hm2 : cvGood.issues_count.getD 0 = 0 := rfl
  norm_num [totalDepreciation_cvGood, hu, hc, hd, hcalc, hdisc, h25, h5, h0,
    hm1, hm2, nlpGoodResult]

/-- `C1` witness: both equalities at concrete inputs (the NLP hypothesis is
discharged at `cvGood`, whose total depreciation 30 is rounding-stable). -/
theorem C1_witness :
    ((SRC.calculateUsedPrice "apple" "iphone" cvGood (some 100)).calculated_used_price =
      pyRound 2 ((SRC.calculateUsedPrice "apple" "iphone" cvGood (some 100)).reference_new_price *
        (1 - (SRC.calculateUsedPrice "apple" "iphone" cvGood (some 100)).discount_percentage / 100))) ∧
    nlpGoodResult.calculated_used_price =
      pyRound 2 (nlpGoodResult.reference_new_price *
        (1 - nlpGoodResult.discount_percentage / 100)) :=
  ⟨C1_used_price_formula.1 "apple" "iphone" cvGood (some 100),
   C1_used_price_formula.2 false webNone 0 "apple" "iphone" cvGood (some 100)
     none emptyState nlpGoodResult totalDepreciation_cvGood_fix calcGood_eval⟩

theorem totalDepreciation_cvImpact :
    NLP.totalDepreciation cvImpact12341 = 42341/1000 := by
  have hcond : strLower "good" = "good" := by decide
  have hu : NLP.calculateUsageDepreciation cvImpact12341 = 25 := by
    norm_num [NLP.calculateUsageDepreciation, cvImpact12341, NLP.usageDepreciation]
  have hc : NLP.calculateConditionDepreciation cvImpact12341 = 5 := by
    simp [NLP.calculateConditionDepreciation, cvImpact12341, hcond, NLP.conditionMap]
  have hd : NLP.calculateDamageDepreciation cvImpact12341 = 12341/1000 := by
    norm_num [NLP.calculateDamageDepreciation, cvImpact12341]
  norm_num [NLP.totalDepreciation, hu, hc, hd]

/-- `C1` counterexample: with `total_discount_impact = 0.12341` and a manual
reference price of 1000 the NLP calculator reports `discount_percentage =
42.34` but prices from the unrounded total 42.341: the used price is 576.59
while the claimed formula gives 576.60. -/
theorem C1_counterexample :
    ((NLP.calculateUsedPrice false webNone 0 "b" "m" cvImpact12341 (some 1000)
        none emptyState).1 = some nlpImpactResult) ∧
    pyRound 2 (nlpImpactResult.reference_new_price *
      (1 - nlpImpactResult.discount_percentage / 100)) = 2883/5 ∧
    nlpImpactResult.calculated_used_price = 57659/100 ∧
    (57659/100 : ℚ) ≠ 2883/5 := by
  have hdisc : pyRound 2 (42341/1000 : ℚ) = 2117/50 := by
    unfold pyRound
    have hfl : ⌊(42341/1000 : ℚ) * 10 ^ 2⌋ = 4234 := by norm_num
    rw [roundTE_floor_of_lt (by rw [hfl]; norm_num), hfl]
    norm_num
  refine ⟨?_, ?_, by norm_num [nlpImpactResult], by norm_num [nlpImpactResult]⟩
  · rw [calculateUsedPrice_manual_fst]
    have hcond : strLower "good" = "good" := by decide
    have hu : NLP.calculateUsageDepreciation cvImpact12341 = 25 := by
      norm_num [NLP.calculateUsageDepreciation, cvImpact12341, NLP.usageDepreciation]
    have hc : NLP.calculateConditionDepreciation cvImpact12341 = 5 := by
      simp [NLP.calculateConditionDepreciation, cvImpact12341, hcond, NLP.conditionMap]
    have hd : NLP.calculateDamageDepreciation cvImpact12341 = 12341/1000 := by
      norm_num [NLP.calculateDamageDepreciation, cvImpact12341]
    have hcalc : pyRound 2 (57659/100 : ℚ) = 57659/100 :=
      pyRound_self 57659 (by norm_num)
    have h25 : pyRound 2 (25 : ℚ) = 25 := pyRound_self 2500 (by norm_num)
    have h5 : pyRound 2 (5 : ℚ) = 5 := pyRound_self 500 (by norm_num)
    have hdmg : pyRound 2 (12341/1000 : ℚ) = 617/50 := by
      unfold pyRound
      have hfl : ⌊(12341/1000 : ℚ) * 10 ^ 2⌋ = 1234 := by norm_num
      rw [roundTE_floor_of_lt (by rw [hfl]; norm_num), hfl]
      norm_num
    have hm1 : cvImpact12341.condition_score.getD 7 = 7 := rfl
    have hm2 : cvImpact12341.issues_count.getD 0 = 0 := rfl
    norm_num [totalDepreciation_cvImpact, hu, hc, hd, hcalc, hdisc, h25, h5,
      hdmg, hm1, hm2, nlpImpactResult]
  · have h1 : nlpImpactResult.reference_new_price *
        (1 - nlpImpactResult.discount_percentage / 100) = 2883/5 := by
      norm_num [nlpImpactResult]
    rw [h1]
    exact pyRound_self 57660 (by norm_num)

theorem baseDepreciation_lower (q : ℚ) : 10 ≤ SRC.baseDepreciation q := by
  unfold SRC.baseDepreciation
  split_ifs <;> norm_num

theorem conditionAdjustment_nonneg (c : String) : 0 ≤ SRC.conditionAdjustment c := by
  unfold SRC.conditionAdjustment
  split_ifs <;> norm_num

theorem basePenalty_nonneg (t : String) : 0 ≤ SRC.basePenalty t := by
  unfold SRC.basePenalty
  split_ifs <;> norm_num

theorem severityMultiplier_nonneg (sv : String) : 0 ≤ SRC.severityMultiplier sv := by
  unfold SRC.severityMultiplier
  split_ifs <;> norm_num

theorem issuePenalty_nonneg {issues : List Issue}
    (h : ∀ i ∈ issues, 0 ≤ i.confidence.getD (1/2)) :
    0 ≤ SRC.issuePenalty issues := by
  unfold SRC.issuePenalty
  split_ifs
  · exact le_refl 0
  · refine le_min (List.sum_nonneg ?_) (by norm_num)
    intro x hx
    obtain ⟨i, hi, rfl⟩ := List.mem_map.mp hx
    have := h i hi
    have h1 := basePenalty_nonneg (i.type.getD "")
    have h2 := severityMultiplier_nonneg (i.severity.getD "minor")
    positivity

/-- `C2`: the reported `discount_percentage` always lies within the global
cap — `[0, 85]` for the NLP calculator (given the evaluator-produced
`total_discount_impact ≥ 0`) and `[0, 80]` for the `src/src` calculator
(given per-issue confidences ≥ 0) — for arbitrarily extreme `usage_years`,
conditions, and issue lists. -/
theorem C2_discount_within_cap :
    (∀ (uw : Bool) (web : NLP.WebSearch) (now : ℚ) (brand model : String)
        (cv : CvData) (rp : Option ℚ) (cat : Option String) (s : NLP.State)
        (r : NLP.PricingResult),
      0 ≤ cv.total_discount_impact.getD 0 →
      (NLP.calculateUsedPrice uw web now brand model cv rp cat s).1 = some r →
      0 ≤ r.discount_percentage ∧ r.discount_percentage ≤ 85) ∧
    (∀ (brand model : String) (cv : CvData) (rp : Option ℚ),
      (∀ i ∈ cv.detected_issues, 0 ≤ i.confidence.getD (1/2)) →
      0 ≤ (SRC.calculateUsedPrice brand model cv rp).discount_percentage ∧
        (SRC.calculateUsedPrice brand model cv rp).discount_percentage ≤ 80) := by
  constructor
  · intro uw web now brand model cv rp cat s r himp h
    obtain ⟨hd, _⟩ := calculateUsedPrice_some_inv h
    obtain ⟨h0, h85⟩ := totalDepreciation_bounds himp
    rw [hd]
    constructor
    · have := le_pyRound (m := 0) (n := 2) (x := NLP.totalDepreciation cv)
        (by exact_mod_cast h0)
      exact_mod_cast this
    · have := pyRound_le (m := 85) (n := 2) (x := NLP.totalDepreciation cv)
        (by exact_mod_cast h85)
      exact_mod_cast this
  · intro brand model cv rp hconf
    have hbase := baseDepreciation_lower (cv.condition_score.getD 7)
    have hadj := conditionAdjustment_nonneg (cv.overall_condition.getD "good")
    have hpen := issuePenalty_nonneg hconf
    have h0 : (0 : ℚ) ≤ min (SRC.baseDepreciation (cv.condition_score.getD 7) +
        SRC.conditionAdjustment (cv.overall_condition.getD "good") +
        SRC.issuePenalty cv.detected_issues) 80 := by
      refine le_min ?_ (by norm_num)
      linarith
    have h80 : min (SRC.baseDepreciation (cv.condition_score.getD 7) +
        SRC.conditionAdjustment (cv.overall_condition.getD "good") +
        SRC.issuePenalty cv.detected_issues) 80 ≤ (80 : ℚ) := min_le_right _ _
    constructor
    · have := le_pyRound (m := 0) (n := 2) (by exact_mod_cast h0)
      exact_mod_cast this
    · have := pyRound_le (m := 80) (n := 2) (by exact_mod_cast h80)
      exact_mod_cast this

theorem getReferencePrice_db_hit {uw : Bool} {web : NLP.WebSearch} {now : ℚ}
    {brand model : String} {cat : Option String} {s : NLP.State} {p : ℚ}
    (hdb : s.db (NLP.dbGenerateKey brand model) = some p) (hp : p ≠ 0) :
    NLP.getReferencePrice uw web now brand model cat s =
      (some { price := p, source := "database" }, s) := by
  unfold NLP.getReferencePrice
  rw [hdb]
  simp [hp]

theorem calculateUsedPrice_refData {uw : Bool} {web : NLP.WebSearch} {now : ℚ}
    {brand model : String} {cv : CvData} {cat : Option String} {s s₁ : NLP.State}
    {rd : NLP.RefPriceData}
    (hg : NLP.getReferencePrice uw web now brand model cat s = (some rd, s₁)) :
    NLP.calculateUsedPrice uw web now brand model cv none cat s =
      (some { reference_new_price := rd.price
              calculated_used_price := pyRound 2 (rd.price * (1 - NLP.totalDepreciation cv / 100))
              discount_percentage := pyRound 2 (NLP.totalDepreciation cv)
              breakdown_usage := pyRound 2 (NLP.calculateUsageDepreciation cv)
              breakdown_condition := pyRound 2 (NLP.calculateConditionDepreciation cv)
              breakdown_damage := pyRound 2 (NLP.calculateDamageDepreciation cv)
              currency := "EGP"
              meta_brand := brand
              meta_model := model
              meta_source := rd.source
              meta_condition_score := cv.condition_score.getD 7
              meta_issues_count := cv.issues_count.getD 0 }, s₁) := by
  unfold NLP.calculateUsedPrice
  rw [hg]
  rfl

theorem calculateUsedPrice_none {uw : Bool} {web : NLP.WebSearch} {now : ℚ}
    {brand model : String} {cv : CvData} {cat : Option String} {s s₁ : NLP.State}
    (hg : NLP.getReferencePrice uw web now brand model cat s = (none, s₁)) :
    NLP.calculateUsedPrice uw web now brand model cv none cat s = (none, s₁) := by
  unfold NLP.calculateUsedPrice
  rw [hg]

/-- `C3`: reference-price resolution is manual → database → cache → web
search, short-circuiting on the first hit.  A caller-supplied
`reference_price` suppresses all lookups (the outcome matches the one
computed against an empty state with no web collaborator, the state is
untouched, and the result is sourced `"manual"`); with the product in the
database (at a non-zero price) and a fresh cache entry holding a different
price, resolution returns the database price with source `"database"` and
leaves the state untouched. -/
theorem C3_tier_order :
    (∀ (uw : Bool) (web : NLP.WebSearch) (now : ℚ) (brand model : String)
        (cv : CvData) (p : ℚ) (cat : Option String) (s : NLP.State),
      (NLP.calculateUsedPrice uw web now brand model cv (some p) cat s).2 = s ∧
      (NLP.calculateUsedPrice uw web now brand model cv (some p) cat s).1 =
        (NLP.calculateUsedPrice false webNone 0 brand model cv (some p) cat
          emptyState).1 ∧
      (∀ r, (NLP.calculateUsedPrice uw web now brand model cv (some p) cat s).1 =
          some r → r.meta_source = "manual" ∧ r.reference_new_price = p)) ∧
    (∀ (uw : Bool) (web : NLP.WebSearch) (now : ℚ) (brand model : String)
        (cv : CvData) (cat : Option String) (s : NLP.State) (p : ℚ)
        (entry : NLP.CacheEntry),
      s.db (NLP.dbGenerateKey brand model) = some p → 0 < p →
      s.cache (NLP.cacheGenerateKey brand model cat) = some entry →
      now - entry.timestamp ≤ 7 → entry.priceData ≠ p →
      NLP.getReferencePrice uw web now brand model cat s =
        (some { price := p, source := "database" }, s) ∧
      (∀ r, (NLP.calculateUsedPrice uw web now brand model cv none cat s).1 =
          some r → r.meta_source = "database" ∧ r.reference_new_price = p)) := by
  constructor
  · intro uw web now brand model cv p cat s
    refine ⟨rfl, rfl, ?_⟩
    intro r h
    rw [calculateUsedPrice_manual_fst] at h
    obtain rfl := Option.some.inj h.symm
    exact ⟨rfl, rfl⟩
  · intro uw web now brand model cv cat s p entry hdb hp hcache hfresh hdiff
    have hget := @getReferencePrice_db_hit uw web now brand model cat s p hdb
      (ne_of_gt hp)
    refine ⟨hget, ?_⟩
    intro r h
    rw [calculateUsedPrice_refData hget] at h
    simp only [Prod.fst] at h
    obtain rfl := Option.some.inj h.symm
    exact ⟨rfl, rfl⟩

/-- `C3` witness: manual suppression and database-over-fresh-cache at a
concrete state (database 900, cache 800 cached three days ago). -/
theorem C3_witness :
    ((NLP.calculateUsedPrice true webNone 3 "Apple" "iPhone 15" cvGood (some 777)
        (some "mobile") stateDbAndCache).2 = stateDbAndCache) ∧
    NLP.getReferencePrice true webNone 3 "Apple" "iPhone 15" (some "mobile")
        stateDbAndCache =
      (some { price := 900, source := "database" }, stateDbAndCache) :=
  ⟨(C3_tier_order.1 true webNone 3 "Apple" "iPhone 15" cvGood 777 (some "mobile")
      stateDbAndCache).1,
   (C3_tier_order.2 true webNone 3 "Apple" "iPhone 15" cvGood (some "mobile")
      stateDbAndCache 900 ⟨0, 800⟩ (by simp [stateDbAndCache]) (by norm_num)
      (by simp [stateDbAndCache]) (by norm_num) (by norm_num)).1⟩

theorem getReferencePrice_all_miss {uw : Bool} {web : NLP.WebSearch} {now : ℚ}
    {brand model : String} {cat : Option String} {s : NLP.State}
    (hdb : s.db (NLP.dbGenerateKey brand model) = none)
    (hc : s.cache (NLP.cacheGenerateKey brand model cat) = none)
    (hw : web brand model cat = none) :
    NLP.getReferencePrice uw web now brand model cat s = (none, s) := by
  unfold NLP.getReferencePrice
  rw [hdb]
  cases uw with
  | false => rfl
  | true => simp [NLP.cacheGet, hc, hw]

/-- `C4`: when no reference price is supplied and database, cache and web
search all miss, `calculate_used_price` returns `None` (a typed miss, not an
exception), the integration service turns it into
`{success: false, error: "price_not_found"}`, `/cv-to-pricing` maps the
unsuccessful result to HTTP 404, and `/calculate-price` answers 404 with
status `"price_not_found"`. -/
theorem C4_price_not_found (uw : Bool) (web : NLP.WebSearch) (now : ℚ)
    (brand model productName : String) (cv : CvData) (cat : Option String)
    (s : NLP.State)
    (hdb : s.db (NLP.dbGenerateKey brand model) = none)
    (hc : s.cache (NLP.cacheGenerateKey brand model cat) = none)
    (hw : web brand model cat = none) :
    (NLP.calculateUsedPrice uw web now brand model cv none cat s).1 = none ∧
    NLP.workflowPricingCheck
        (NLP.calculateUsedPrice uw web now brand model cv none cat s).1 productName =
      some { success := false, error := "price_not_found",
             message := "Could not find pricing data for \x27" ++ productName ++ "\x27" } ∧
    NLP.cvToPricingStatus false = 404 ∧
    NLP.calculatePriceEndpoint
        (NLP.calculateUsedPrice uw web now brand model cv none cat s).1 brand model =
      .notFound "price_not_found"
        ("Could not find market price for \x27" ++ brand ++ " " ++ model ++ "\x27.")
        "Please provide \x27reference_price\x27 manually to continue." 404 := by
  have h0 : (NLP.calculateUsedPrice uw web now brand model cv none cat s).1 = none := by
    rw [calculateUsedPrice_none (getReferencePrice_all_miss hdb hc hw)]
  rw [h0]
  exact ⟨rfl, rfl, rfl, rfl⟩

/-- `C4` witness: the full miss cascade at an empty state. -/
theorem C4_witness :
    (NLP.calculateUsedPrice true webNone 0 "ghost" "brand" cvGood none none
      emptyState).1 = none ∧
    NLP.workflowPricingCheck
        (NLP.calculateUsedPrice true webNone 0 "ghost" "brand" cvGood none none
          emptyState).1 "ghost brand" =
      some { success := false, error := "price_not_found",
             message := "Could not find pricing data for \x27ghost brand\x27" } ∧
    NLP.cvToPricingStatus false = 404 ∧
    NLP.calculatePriceEndpoint
        (NLP.calculateUsedPrice true webNone 0 "ghost" "brand" cvGood none none
          emptyState).1 "ghost" "brand" =
      .notFound "price_not_found"
        "Could not find market price for \x27ghost brand\x27."
        "Please provide \x27reference_price\x27 manually to continue." 404 :=
  C4_price_not_found true webNone 0 "ghost" "brand" "ghost brand" cvGood none
    emptyState rfl rfl rfl

theorem cacheSet_get_key (cache : String → Option NLP.CacheEntry) (t p : ℚ)
    (brand model : String) (cat : Option String) :
    NLP.cacheSet cache t brand model p cat (NLP.cacheGenerateKey brand model cat) =
      some ⟨t, p⟩ := by
  unfold NLP.cacheSet
  simp

/-- `C8`: a cache entry written at time `t` is a miss on any `get` strictly
more than `expiry_days = 7` days later — and the entry is removed — while a
`get` within the expiry window returns the stored price data and leaves the
cache unchanged. -/
theorem C8_cache_expiry (cache : String → Option NLP.CacheEntry)
    (brand model : String) (cat : Option String) (p t now : ℚ) :
    (7 < now - t →
      (NLP.cacheGet (NLP.cacheSet cache t brand model p cat) 7 now brand model
        cat).1 = none ∧
      (NLP.cacheGet (NLP.cacheSet cache t brand model p cat) 7 now brand model
        cat).2 (NLP.cacheGenerateKey brand model cat) = none) ∧
    (now - t ≤ 7 →
      (NLP.cacheGet (NLP.cacheSet cache t brand model p cat) 7 now brand model
        cat).1 = some p ∧
      (NLP.cacheGet (NLP.cacheSet cache t brand model p cat) 7 now brand model
        cat).2 = NLP.cacheSet cache t brand model p cat) := by
  have hkey := cacheSet_get_key cache t p brand model cat
  constructor
  · intro hexp
    unfold NLP.cacheGet
    dsimp only
    rw [hkey]
    dsimp only
    rw [if_pos hexp]
    exact ⟨rfl, by simp⟩
  · intro hfresh
    unfold NLP.cacheGet
    dsimp only
    rw [hkey]
    dsimp only
    rw [if_neg (not_lt.mpr hfresh)]
    exact ⟨rfl, rfl⟩

/-- `C8` witness: an entry written at day 0 misses (and is evicted) at day 8
and hits at day 7. -/
theorem C8_witness :
    ((NLP.cacheGet (NLP.cacheSet (fun _ => none) 0 "a" "b" 500 none) 7 8 "a" "b"
        none).1 = none ∧
      (NLP.cacheGet (NLP.cacheSet (fun _ => none) 0 "a" "b" 500 none) 7 8 "a" "b"
        none).2 (NLP.cacheGenerateKey "a" "b" none) = none) ∧
    ((NLP.cacheGet (NLP.cacheSet (fun _ => none) 0 "a" "b" 500 none) 7 7 "a" "b"
        none).1 = some 500 ∧
      (NLP.cacheGet (NLP.cacheSet (fun _ => none) 0 "a" "b" 500 none) 7 7 "a" "b"
        none).2 = NLP.cacheSet (fun _ => none) 0 "a" "b" 500 none) :=
  ⟨(C8_cache_expiry (fun _ => none) "a" "b" none 500 0 8).1 (by norm_num),
   (C8_cache_expiry (fun _ => none) "a" "b" none 500 0 7).2 (by norm_num)⟩

theorem getReferencePrice_snd_cache_fresh {uw : Bool} {web : NLP.WebSearch}
    {now : ℚ} {brand model : String} {cat : Option String} {s : NLP.State}
    {entry : NLP.CacheEntry}
    (hcache : s.cache (NLP.cacheGenerateKey brand model cat) = some entry)
    (hfresh : ¬ 7 < now - entry.timestamp) :
    (NLP.getReferencePrice uw web now brand model cat s).2 = s := by
  unfold NLP.getReferencePrice
  cases hdb : s.db (NLP.dbGenerateKey brand model) with
  | none =>
    cases uw with
    | false => rfl
    | true => simp [NLP.cacheGet, hcache, hfresh]
  | some p =>
    by_cases hp : p = 0
    · subst hp
      cases uw with
      | false => simp [NLP.cacheGet, hcache, hfresh]
      | true => simp [NLP.cacheGet, hcache, hfresh]
    · simp [hp]

/-- `C10` (amended): every `calculate_used_price` call that resolves its
price from a caller-supplied value, from the database, or from a fresh
cache entry leaves the shared state (database and cache contents) exactly
as it was; besides the web-search write-back, the one remaining mutation is
the eviction of an expired entry during the cache lookup, exhibited by the
counterexample. -/
theorem C10_no_write_on_hit_paths :
    (∀ (uw : Bool) (web : NLP.WebSearch) (now : ℚ) (brand model : String)
        (cv : CvData) (p : ℚ) (cat : Option String) (s : NLP.State),
      (NLP.calculateUsedPrice uw web now brand model cv (some p) cat s).2 = s) ∧
    (∀ (uw : Bool) (web : NLP.WebSearch) (now : ℚ) (brand model : String)
        (cv : CvData) (cat : Option String) (s : NLP.State) (p : ℚ),
      s.db (NLP.dbGenerateKey brand model) = some p → p ≠ 0 →
      (NLP.calculateUsedPrice uw web now brand model cv none cat s).2 = s) ∧
    (∀ (uw : Bool) (web : NLP.WebSearch) (now : ℚ) (brand model : String)
        (cv : CvData) (cat : Option String) (s : NLP.State)
        (entry : NLP.CacheEntry),
      s.cache (NLP.cacheGenerateKey brand model cat) = some entry →
      ¬ 7 < now - entry.timestamp →
      (NLP.calculateUsedPrice uw web now brand model cv none cat s).2 = s) := by
  refine ⟨fun _ _ _ _ _ _ _ _ _ => rfl, ?_, ?_⟩
  · intro uw web now brand model cv cat s p hdb hp
    rw [calculateUsedPrice_refData (getReferencePrice_db_hit hdb hp)]
  · intro uw web now brand model cv cat s entry hcache hfresh
    have hsnd := @getReferencePrice_snd_cache_fresh uw web now brand model cat
      s entry hcache hfresh
    rcases hg : NLP.getReferencePrice uw web now brand model cat s with ⟨og, s₁⟩
    have hs₁ : s₁ = s := by rw [hg] at hsnd; exact hsnd
    subst hs₁
    cases og with
    | none => rw [calculateUsedPrice_none hg]
    | some rd => rw [calculateUsedPrice_refData hg]

/-- `C10` witness: the three mutation-free paths at concrete states. -/
theorem C10_witness :
    ((NLP.calculateUsedPrice true webNone 3 "Apple" "iPhone 15" cvGood (some 777)
        (some "mobile") stateDbAndCache).2 = stateDbAndCache) ∧
    ((NLP.calculateUsedPrice true webNone 3 "Apple" "iPhone 15" cvGood none
        (some "mobile") stateDbAndCache).2 = stateDbAndCache) ∧
    ((NLP.calculateUsedPrice true webNone 3 "a" "b" cvGood none none
        stateStaleCache).2 = stateStaleCache) :=
  ⟨C10_no_write_on_hit_paths.1 true webNone 3 "Apple" "iPhone 15" cvGood 777
      (some "mobile") stateDbAndCache,
   C10_no_write_on_hit_paths.2.1 true webNone 3 "Apple" "iPhone 15" cvGood
      (some "mobile") stateDbAndCache 900 (by simp [stateDbAndCache]) (by norm_num),
   C10_no_write_on_hit_paths.2.2 true webNone 3 "a" "b" cvGood none
      stateStaleCache ⟨0, 100⟩ (by simp [stateStaleCache]) (by norm_num)⟩

/-- `C10` counterexample to the claim as stated: a call where the web search
finds nothing (so no successful web-search write-back happens) still
mutates the cache — the lookup evicts the expired entry for the queried
key. -/
theorem C10_counterexample :
    ((NLP.calculateUsedPrice true webNone 10 "a" "b" cvGood none none
        stateStaleCache).1 = none) ∧
    stateStaleCache.cache (NLP.cacheGenerateKey "a" "b" none) = some ⟨0, 100⟩ ∧
    (NLP.calculateUsedPrice true webNone 10 "a" "b" cvGood none none
        stateStaleCache).2.cache (NLP.cacheGenerateKey "a" "b" none) = none := by
  have hcache : stateStaleCache.cache (NLP.cacheGenerateKey "a" "b" none) =
      some ⟨0, 100⟩ := by simp [stateStaleCache]
  have hget : NLP.getReferencePrice true webNone 10 "a" "b" none stateStaleCache =
      (none, { stateStaleCache with
        cache := fun k =>
          if k = NLP.cacheGenerateKey "a" "b" none then none
          else stateStaleCache.cache k }) := by
    unfold NLP.getReferencePrice
    have hdb : stateStaleCache.db (NLP.dbGenerateKey "a" "b") = none := rfl
    rw [hdb]
    unfold NLP.cacheGet
    dsimp only
    rw [hcache]
    norm_num [webNone]
  refine ⟨?_, hcache, ?_⟩
  · rw [calculateUsedPrice_none hget]
  · rw [calculateUsedPrice_none hget]
    simp

theorem exceptPure_eq_ok {ε α : Type} (a : α) : (pure a : Except ε α) = Except.ok a :=
  rfl

theorem missingIssueFields_dict (fields : List (String × Validator.PyVal))
    (index : ℕ) (fs : List String) :
    Validator.missingIssueFields (.dict fields) index fs =
      .ok (Validator.issueDictMissingPure fields index fs) := by
  induction fs with
  | nil => rfl
  | cons f rest ih =>
    simp [Validator.missingIssueFields, Validator.issueDictMissingPure,
      Validator.pyContains, ih, Bind.bind, Except.bind, exceptPure_eq_ok]

theorem validateIssue_dict (fields : List (String × Validator.PyVal))
    (index : ℕ) :
    Validator.validateIssue (.dict fields) index =
      .ok (Validator.issueDictErrs fields index) := by
  unfold Validator.validateIssue Validator.issueDictErrs
  rw [missingIssueFields_dict]
  dsimp only [Validator.pyContains, Validator.pyIndex, Bind.bind, Except.bind,
    Pure.pure, Except.pure]
  cases hs : fields.lookup "severity" with
  | none =>
    cases hc : fields.lookup "confidence" with
    | none => simp [hs, hc]
    | some vc => cases vc <;> simp [hs, hc]
  | some vs =>
    cases hc : fields.lookup "confidence" with
    | none => simp [hs, hc]
    | some vc => cases vc <;> simp [hs, hc]

theorem validateIssuesList_dicts (xs : List Validator.PyVal) (index : ℕ)
    (h : ∀ x ∈ xs, x.isDict = true) :
    Validator.validateIssuesList index xs =
      .ok (Validator.issuesErrsPure index xs) := by
  induction xs generalizing index with
  | nil => rfl
  | cons x rest ih =>
    obtain ⟨fields, rfl⟩ : ∃ fs, x = .dict fs := by
      have hx := h x (List.mem_cons_self x rest)
      cases x <;> simp [Validator.PyVal.isDict] at hx ⊢
    have hrest : ∀ y ∈ rest, y.isDict = true := fun y hy =>
      h y (List.mem_cons_of_mem _ hy)
    simp [Validator.validateIssuesList, Validator.issuesErrsPure,
      validateIssue_dict, ih _ hrest, Bind.bind, Except.bind, exceptPure_eq_ok]

theorem validateCvOutput_eq (rec : Validator.PyDict)
    (h : ∀ xs, rec.lookup "detected_issues" = some (.list xs) →
      ∀ x ∈ xs, x.isDict = true) :
    Validator.validateCvOutput rec =
      .ok { valid := (Validator.cvErrsPure rec).isEmpty
            errors := Validator.cvErrsPure rec } := by
  unfold Validator.validateCvOutput Validator.cvErrsPure
  cases hdi : rec.lookup "detected_issues" with
  | none => simp [Bind.bind, Except.bind, exceptPure_eq_ok]
  | some v =>
    cases v with
    | list xs =>
      simp [validateIssuesList_dicts xs 0 (h xs hdi), Bind.bind, Except.bind,
        exceptPure_eq_ok]
    | num q => simp [Bind.bind, Except.bind, exceptPure_eq_ok]
    | str s => simp [Bind.bind, Except.bind, exceptPure_eq_ok]
    | dict fs => simp [Bind.bind, Except.bind, exceptPure_eq_ok]
    | null => simp [Bind.bind, Except.bind, exceptPure_eq_ok]

theorem validatePricingData_eq (rec : Validator.PyDict)
    (h1 : ∀ v, rec.lookup "reference_new_price" = some v → v.isNum = true)
    (h2 : ∀ v, rec.lookup "calculated_used_price" = some v → v.isNum = true)
    (h3 : ∀ v, rec.lookup "discount_percentage" = some v → v.isNum = true) :
    Validator.validatePricingData rec =
      .ok { valid := (Validator.pricingErrsPure rec).isEmpty
            errors := Validator.pricingErrsPure rec } := by
  have H1 : rec.lookup "reference_new_price" = none ∨
      ∃ q : ℚ, rec.lookup "reference_new_price" = some (.num q) := by
    cases hr : rec.lookup "reference_new_price" with
    | none => exact Or.inl rfl
    | some v =>
      have := h1 v hr
      cases v <;> simp [Validator.PyVal.isNum] at this
      exact Or.inr ⟨_, rfl⟩
  have H2 : rec.lookup "calculated_used_price" = none ∨
      ∃ q : ℚ, rec.lookup "calculated_used_price" = some (.num q) := by
    cases hr : rec.lookup "calculated_used_price" with
    | none => exact Or.inl rfl
    | some v =>
      have := h2 v hr
      cases v <;> simp [Validator.PyVal.isNum] at this
      exact Or.inr ⟨_, rfl⟩
  have H3 : rec.lookup "discount_percentage" = none ∨
      ∃ q : ℚ, rec.lookup "discount_percentage" = some (.num q) := by
    cases hr : rec.lookup "discount_percentage" with
    | none => exact Or.inl rfl
    | some v =>
      have := h3 v hr
      cases v <;> simp [Validator.PyVal.isNum] at this
      exact Or.inr ⟨_, rfl⟩
  unfold Validator.validatePricingData Validator.pricingErrsPure
    Validator.refErrsPure Validator.usedErrsPure Validator.discErrsPure
  rcases H1 with hr | ⟨qr, hr⟩ <;> rcases H2 with hu | ⟨qu, hu⟩ <;>
    rcases H3 with hd | ⟨qd, hd⟩ <;>
    simp [hr, hu, hd, Validator.pyLe, Validator.pyLt, Bind.bind, Except.bind,
      exceptPure_eq_ok] <;>
    by_cases hq : (0:ℚ) ≤ qd <;>
    simp [hq, Bind.bind, Except.bind, exceptPure_eq_ok]

theorem issueDictMissingPure_mem {fields : List (String × Validator.PyVal)}
    {index : ℕ} {f : String} (fs : List String) (hf : f ∈ fs)
    (hnone : fields.lookup f = none) :
    ("Issue " ++ toString index ++ ": Missing field \x27" ++ f ++ "\x27") ∈
      Validator.issueDictMissingPure fields index fs := by
  induction fs with
  | nil => cases hf
  | cons g rest ih =>
    simp only [Validator.issueDictMissingPure, List.mem_append]
    rcases List.mem_cons.mp hf with rfl | hf'
    · left
      simp [hnone]
    · right
      exact ih hf'

theorem issueDictErrs_mem_missing {fields : List (String × Validator.PyVal)}
    {index : ℕ} {f : String} (hf : f ∈ Validator.REQUIRED_ISSUE_FIELDS)
    (hnone : fields.lookup f = none) :
    ("Issue " ++ toString index ++ ": Missing field \x27" ++ f ++ "\x27") ∈
      Validator.issueDictErrs fields index := by
  unfold Validator.issueDictErrs
  simp only [List.mem_append]
  left; left
  exact issueDictMissingPure_mem _ hf hnone

theorem issueDictErrs_mem_severity {fields : List (String × Validator.PyVal)}
    {index : ℕ} {v : Validator.PyVal}
    (hs : fields.lookup "severity" = some v)
    (hmem : Validator.isOneOfStrings v Validator.VALID_SEVERITIES = false) :
    ("Issue " ++ toString index ++
        ": Invalid severity. Must be one of: [\x27minor\x27, \x27moderate\x27, \x27severe\x27]") ∈
      Validator.issueDictErrs fields index := by
  unfold Validator.issueDictErrs
  simp only [List.mem_append]
  left; right
  simp [hs, hmem]

theorem issueDictErrs_mem_conf_type {fields : List (String × Validator.PyVal)}
    {index : ℕ} {v : Validator.PyVal}
    (hc : fields.lookup "confidence" = some v) (hnum : v.isNum = false) :
    ("Issue " ++ toString index ++ ": confidence must be between 0 and 1") ∈
      Validator.issueDictErrs fields index := by
  unfold Validator.issueDictErrs
  simp only [List.mem_append]
  right
  cases v <;> simp [Validator.PyVal.isNum] at hnum <;> simp [hc]

theorem issueDictErrs_mem_conf_range {fields : List (String × Validator.PyVal)}
    {index : ℕ} {q : ℚ} (hc : fields.lookup "confidence" = some (.num q))
    (hq : ¬ (0 ≤ q ∧ q ≤ 1)) :
    ("Issue " ++ toString index ++ ": confidence must be between 0 and 1") ∈
      Validator.issueDictErrs fields index := by
  unfold Validator.issueDictErrs
  simp only [List.mem_append]
  right
  simp [hc, hq]

theorem issuesErrsPure_mem {xs : List Validator.PyVal} {i : ℕ}
    {fields : List (String × Validator.PyVal)} {e : String}
    (hx : xs.get? i = some (.dict fields)) (index : ℕ)
    (he : e ∈ Validator.issueDictErrs fields (index + i)) :
    e ∈ Validator.issuesErrsPure index xs := by
  induction xs generalizing i index with
  | nil => simp at hx
  | cons x rest ih =>
    cases i with
    | zero =>
      have hx' : x = .dict fields := by simpa using hx
      subst hx'
      simp only [Validator.issuesErrsPure, List.mem_append]
      left
      simpa using he
    | succ j =>
      have hx' : rest.get? j = some (.dict fields) := by simpa using hx
      have he' : e ∈ Validator.issueDictErrs fields ((index + 1) + j) := by
        have harith : index + (j + 1) = (index + 1) + j := by omega
        rwa [harith] at he
      cases x with
      | dict fs =>
        simp only [Validator.issuesErrsPure, List.mem_append]
        right
        exact ih hx' (index + 1) he'
      | num q => exact ih hx' (index + 1) he'
      | str s => exact ih hx' (index + 1) he'
      | list l => exact ih hx' (index + 1) he'
      | null => exact ih hx' (index + 1) he'

/-- `C9` (amended): `validate_cv_output` tolerates wrongly-typed field
values (guarded by `isinstance` checks) as long as every entry of
`detected_issues` is a dict, and `validate_pricing_data` as long as the
three price fields, when present, are numeric; under those conditions both
return `{valid, errors}` with `valid` true iff `errors` is empty and
`errors` containing a message for every missing required field and every
range/enum violation, not just the first — including, per issue entry of
`detected_issues`, its missing fields, its severity-enum violation and its
confidence type/range violation, and the not-a-list message for a
wrongly-typed `detected_issues`.  Outside those conditions the
validators can raise: `validate_pricing_data` compares
`pricing_data['reference_new_price'] <= 0` with no type guard, so a string
value raises `TypeError` (see the counterexample). -/
theorem C9_validators_collect_all_violations :
    (∀ rec : Validator.PyDict,
      (∀ v, rec.lookup "reference_new_price" = some v → v.isNum = true) →
      (∀ v, rec.lookup "calculated_used_price" = some v → v.isNum = true) →
      (∀ v, rec.lookup "discount_percentage" = some v → v.isNum = true) →
      ∃ res, Validator.validatePricingData rec = .ok res ∧
        (res.valid = true ↔ res.errors = []) ∧
        (∀ f ∈ (["reference_new_price", "calculated_used_price",
            "discount_percentage"] : List String), rec.lookup f = none →
          ("Missing required field: " ++ f) ∈ res.errors) ∧
        (∀ q : ℚ, rec.lookup "reference_new_price" = some (.num q) → q ≤ 0 →
          "reference_new_price must be positive" ∈ res.errors) ∧
        (∀ q : ℚ, rec.lookup "calculated_used_price" = some (.num q) → q < 0 →
          "calculated_used_price cannot be negative" ∈ res.errors) ∧
        (∀ q : ℚ, rec.lookup "discount_percentage" = some (.num q) →
          ¬ (0 ≤ q ∧ q ≤ 100) →
          "discount_percentage must be between 0 and 100" ∈ res.errors)) ∧
    (∀ rec : Validator.PyDict,
      (∀ xs, rec.lookup "detected_issues" = some (.list xs) →
        ∀ x ∈ xs, x.isDict = true) →
      ∃ res, Validator.validateCvOutput rec = .ok res ∧
        (res.valid = true ↔ res.errors = []) ∧
        (∀ f ∈ Validator.REQUIRED_CV_FIELDS, rec.lookup f = none →
          ("Missing required field: " ++ f) ∈ res.errors) ∧
        (∀ v, rec.lookup "condition_score" = some v → v.isNum = false →
          "condition_score must be between 0 and 10" ∈ res.errors) ∧
        (∀ q : ℚ, rec.lookup "condition_score" = some (.num q) →
          ¬ (0 ≤ q ∧ q ≤ 10) →
          "condition_score must be between 0 and 10" ∈ res.errors) ∧
        (∀ v, rec.lookup "overall_condition" = some v →
          Validator.isOneOfStrings v Validator.VALID_CONDITIONS = false →
          "Invalid overall_condition. Must be one of: [\x27excellent\x27, \x27good\x27, \x27fair\x27, \x27poor\x27]"
            ∈ res.errors) ∧
        (∀ v, rec.lookup "detected_issues" = some v → v.isList = false →
          "detected_issues must be a list" ∈ res.errors) ∧
        (∀ (xs : List Validator.PyVal) (i : ℕ)
            (fields : List (String × Validator.PyVal)),
          rec.lookup "detected_issues" = some (.list xs) →
          xs.get? i = some (.dict fields) →
          (∀ f ∈ Validator.REQUIRED_ISSUE_FIELDS, fields.lookup f = none →
            ("Issue " ++ toString i ++ ": Missing field \x27" ++ f ++ "\x27")
              ∈ res.errors) ∧
          (∀ v, fields.lookup "severity" = some v →
            Validator.isOneOfStrings v Validator.VALID_SEVERITIES = false →
            ("Issue " ++ toString i ++
                ": Invalid severity. Must be one of: [\x27minor\x27, \x27moderate\x27, \x27severe\x27]")
              ∈ res.errors) ∧
          (∀ v, fields.lookup "confidence" = some v → v.isNum = false →
            ("Issue " ++ toString i ++ ": confidence must be between 0 and 1")
              ∈ res.errors) ∧
          (∀ q : ℚ, fields.lookup "confidence" = some (.num q) →
            ¬ (0 ≤ q ∧ q ≤ 1) →
            ("Issue " ++ toString i ++ ": confidence must be between 0 and 1")
              ∈ res.errors))) := by
  constructor
  · intro rec h1 h2 h3
    refine ⟨_, validatePricingData_eq rec h1 h2 h3, ?_, ?_, ?_, ?_, ?_⟩
    · simp [List.isEmpty_iff]
    · intro f hf hnone
      simp only [Validator.pricingErrsPure, List.mem_append]
      left; left; left
      simp only [Validator.pricingMissing, List.mem_filterMap]
      exact ⟨f, hf, by simp [hnone]⟩
    · intro q hq hle
      simp only [Validator.pricingErrsPure, List.mem_append]
      left; left; right
      simp [Validator.refErrsPure, hq, hle]
    · intro q hq hlt
      simp only [Validator.pricingErrsPure, List.mem_append]
      left; right
      simp [Validator.usedErrsPure, hq, hlt]
    · intro q hq hnot
      simp only [Validator.pricingErrsPure, List.mem_append]
      right
      by_cases h0 : (0:ℚ) ≤ q
      · have hc : ¬ q ≤ 100 := fun hc => hnot ⟨h0, hc⟩
        simp [Validator.discErrsPure, hq, h0, hc]
      · simp [Validator.discErrsPure, hq, h0]
  · intro rec h
    refine ⟨_, validateCvOutput_eq rec h, ?_, ?_, ?_, ?_, ?_, ?_, ?_⟩
    · simp [List.isEmpty_iff]
    · intro f hf hnone
      simp only [Validator.cvErrsPure, List.mem_append]
      left; left; left
      simp only [Validator.cvMissing, List.mem_filterMap]
      exact ⟨f, hf, by simp [hnone]⟩
    · intro v hv hnum
      simp only [Validator.cvErrsPure, List.mem_append]
      left; left; right
      cases v <;> simp [Validator.PyVal.isNum] at hnum <;>
        simp [Validator.scoreErrs, hv]
    · intro q hq hnot
      simp only [Validator.cvErrsPure, List.mem_append]
      left; left; right
      simp [Validator.scoreErrs, hq, hnot]
    · intro v hv hmem
      simp only [Validator.cvErrsPure, List.mem_append]
      left; right
      simp [Validator.condErrs, hv, hmem]
    · intro v hv hlist
      simp only [Validator.cvErrsPure, List.mem_append]
      right
      cases v <;> simp [Validator.PyVal.isList] at hlist <;> simp [hv]
    · intro xs i fields hv hx
      have hput : ∀ e, e ∈ Validator.issueDictErrs fields i →
          e ∈ Validator.cvErrsPure rec := by
        intro e he
        simp only [Validator.cvErrsPure, List.mem_append]
        right
        simp only [hv]
        exact issuesErrsPure_mem hx 0 (by simpa using he)
      exact ⟨fun f hf hnone => hput _ (issueDictErrs_mem_missing hf hnone),
             fun v hs hmem2 => hput _ (issueDictErrs_mem_severity hs hmem2),
             fun v hc hnum => hput _ (issueDictErrs_mem_conf_type hc hnum),
             fun q hc hq => hput _ (issueDictErrs_mem_conf_range hc hq)⟩

/-- `C9` witness: the amended claim at concrete records — a numeric pricing
record with three simultaneous violations and a CV record with type, enum
and nested-issue violations. -/
theorem C9_witness :
    (∃ res, Validator.validatePricingData violatingPricingRec = .ok res ∧
      (res.valid = true ↔ res.errors = []) ∧
      (∀ f ∈ (["reference_new_price", "calculated_used_price",
          "discount_percentage"] : List String),
        violatingPricingRec.lookup f = none →
        ("Missing required field: " ++ f) ∈ res.errors) ∧
      (∀ q : ℚ, violatingPricingRec.lookup "reference_new_price" = some (.num q) →
        q ≤ 0 → "reference_new_price must be positive" ∈ res.errors) ∧
      (∀ q : ℚ, violatingPricingRec.lookup "calculated_used_price" = some (.num q) →
        q < 0 → "calculated_used_price cannot be negative" ∈ res.errors) ∧
      (∀ q : ℚ, violatingPricingRec.lookup "discount_percentage" = some (.num q) →
        ¬ (0 ≤ q ∧ q ≤ 100) →
        "discount_percentage must be between 0 and 100" ∈ res.errors)) ∧
    (∃ res, Validator.validateCvOutput violatingCvRec = .ok res ∧
      (res.valid = true ↔ res.errors = []) ∧
      (∀ f ∈ Validator.REQUIRED_CV_FIELDS, violatingCvRec.lookup f = none →
        ("Missing required field: " ++ f) ∈ res.errors) ∧
      (∀ v, violatingCvRec.lookup "condition_score" = some v → v.isNum = false →
        "condition_score must be between 0 and 10" ∈ res.errors) ∧
      (∀ q : ℚ, violatingCvRec.lookup "condition_score" = some (.num q) →
        ¬ (0 ≤ q ∧ q ≤ 10) →
        "condition_score must be between 0 and 10" ∈ res.errors) ∧
      (∀ v, violatingCvRec.lookup "overall_condition" = some v →
        Validator.isOneOfStrings v Validator.VALID_CONDITIONS = false →
        "Invalid overall_condition. Must be one of: [\x27excellent\x27, \x27good\x27, \x27fair\x27, \x27poor\x27]"
          ∈ res.errors) ∧
      (∀ v, violatingCvRec.lookup "detected_issues" = some v → v.isList = false →
        "detected_issues must be a list" ∈ res.errors) ∧
      (∀ (xs : List Validator.PyVal) (i : ℕ)
          (fields : List (String × Validator.PyVal)),
        violatingCvRec.lookup "detected_issues" = some (.list xs) →
        xs.get? i = some (.dict fields) →
        (∀ f ∈ Validator.REQUIRED_ISSUE_FIELDS, fields.lookup f = none →
          ("Issue " ++ toString i ++ ": Missing field \x27" ++ f ++ "\x27")
            ∈ res.errors) ∧
        (∀ v, fields.lookup "severity" = some v →
          Validator.isOneOfStrings v Validator.VALID_SEVERITIES = false →
          ("Issue " ++ toString i ++
              ": Invalid severity. Must be one of: [\x27minor\x27, \x27moderate\x27, \x27severe\x27]")
            ∈ res.errors) ∧
        (∀ v, fields.lookup "confidence" = some v → v.isNum = false →
          ("Issue " ++ toString i ++ ": confidence must be between 0 and 1")
            ∈ res.errors) ∧
        (∀ q : ℚ, fields.lookup "confidence" = some (.num q) →
          ¬ (0 ≤ q ∧ q ≤ 1) →
          ("Issue " ++ toString i ++ ": confidence must be between 0 and 1")
            ∈ res.errors))) := by
  constructor
  · apply C9_validators_collect_all_violations.1 violatingPricingRec
    · intro v hv
      have hl : violatingPricingRec.lookup "reference_new_price" =
          some (.num 0) := rfl
      rw [hl] at hv
      cases hv
      rfl
    · intro v hv
      have hl : violatingPricingRec.lookup "calculated_used_price" =
          (none : Option Validator.PyVal) := rfl
      rw [hl] at hv
      cases hv
    · intro v hv
      have hl : violatingPricingRec.lookup "discount_percentage" =
          some (.num 150) := rfl
      rw [hl] at hv
      cases hv
      rfl
  · apply C9_validators_collect_all_violations.2 violatingCvRec
    intro xs hxs
    have hl : violatingCvRec.lookup "detected_issues" =
        some (.list [.dict [("severity", .str "huge")]]) := rfl
    rw [hl] at hxs
    cases hxs
    intro x hx
    simp only [List.mem_singleton] at hx
    subst hx
    rfl

/-- `C9` counterexample to the claim as stated: `validate_pricing_data` does
raise — a record whose `reference_new_price` is the string `"expensive"`
makes `pricing_data['reference_new_price'] <= 0` a `TypeError` instead of
returning a `{valid, errors}` result. -/
theorem C9_counterexample :
    Validator.validatePricingData badPricingRec = .error "TypeError" := rfl

/-- `C2` witness: both caps at a concrete input. -/
theorem C2_witness :
    (0 ≤ nlpGoodResult.discount_percentage ∧ nlpGoodResult.discount_percentage ≤ 85) ∧
    (0 ≤ (SRC.calculateUsedPrice "apple" "iphone" cvGood (some 100)).discount_percentage ∧
      (SRC.calculateUsedPrice "apple" "iphone" cvGood (some 100)).discount_percentage ≤ 80) :=
  ⟨C2_discount_within_cap.1 false webNone 0 "apple" "iphone" cvGood (some 100)
      none emptyState nlpGoodResult (by norm_num [cvGood]) calcGood_eval,
   C2_discount_within_cap.2 "apple" "iphone" cvGood (some 100) (by
      intro i hi
      simp [cvGood] at hi)⟩

end DP
